import Mathlib

/-!
Shallow embedding of the reconciliation/admission core of the
cloudsql-postgres-operator repository, together with theorems settling
the claims about it.

The embedding follows the Go sources:
  * pkg/apis/cloudsql/v1alpha1/postgresqlinstance_types.go (data model),
  * pkg/admission/postgresqlinstance.go (webhook pipeline),
  * pkg/admission/patch.go (structural diff),
  * the controllers package (processQueueItem, createInstance,
    deleteInstance, maybeUpdateInstance, buildDatabaseInstanceSettings,
    updateDatabaseInstanceSettings, setPostgresqlInstanceCondition),
  * the google util package (IsConflict / IsBadRequest / IsNotFound).

Go pointers become Option values; dereference of a nil pointer is made
explicit as a `panicked` outcome.  External calls (the Cloud SQL Admin
API, the Kubernetes API) are modelled by deterministic oracles passed in
an environment record, and the controller additionally records a trace
of the calls it performs.
-/

set_option maxRecDepth 4000

namespace CloudsqlOperator

/-- Association lists standing for Go string maps (`map[string]string`).
`lookupKV` is map indexing; `insertKV` is map assignment (replace in
place when the key exists, append otherwise). -/
abbrev KVList := List (String × String)

def lookupKV : KVList → String → Option String
  | [], _ => none
  | (k', v) :: rest, k => if k' = k then some v else lookupKV rest k

def insertKV : KVList → String → String → KVList
  | [], k, v => [(k, v)]
  | (k', v') :: rest, k, v =>
    if k' = k then (k, v) :: rest else (k', v') :: insertKV rest k v

/-! ## Data model (postgresqlinstance_types.go)

Every Go pointer field (`*T`) and every nilable slice/map becomes an
`Option`.  The string newtypes (availability type, zone, maintenance
day/hour, disk type, version, condition type/status) are plain strings,
with their constant values bound below. -/

/-- `.spec.availability` -/
structure SpecAvailability where
  type : Option String
deriving DecidableEq, Repr

/-- `.spec.backups.daily` -/
structure SpecBackupsDaily where
  enabled : Option Bool
  startTime : Option String
deriving DecidableEq, Repr

/-- `.spec.backups` -/
structure SpecBackups where
  daily : Option SpecBackupsDaily
deriving DecidableEq, Repr

/-- `.spec.location` -/
structure SpecLocation where
  region : Option String
  zone : Option String
deriving DecidableEq, Repr

/-- `.spec.maintenance` -/
structure SpecMaintenance where
  day : Option String
  hour : Option String
deriving DecidableEq, Repr

/-- `.spec.networking.privateIp` -/
structure SpecNetworkingPrivateIP where
  enabled : Option Bool
  network : Option String
deriving DecidableEq, Repr

/-- one entry of `.spec.networking.publicIp.authorizedNetworks` -/
structure SpecAuthorizedNetwork where
  cidr : String
  name : Option String
deriving DecidableEq, Repr

/-- `.spec.networking.publicIp` -/
structure SpecNetworkingPublicIP where
  authorizedNetworks : Option (List SpecAuthorizedNetwork)
  enabled : Option Bool
deriving DecidableEq, Repr

/-- `.spec.networking` -/
structure SpecNetworking where
  privateIP : Option SpecNetworkingPrivateIP
  publicIP : Option SpecNetworkingPublicIP
deriving DecidableEq, Repr

/-- `.spec.resources.disk` -/
structure SpecResourcesDisk where
  sizeMaximumGb : Option Int
  sizeMinimumGb : Option Int
  type : Option String
deriving DecidableEq, Repr

/-- `.spec.resources` -/
structure SpecResources where
  disk : Option SpecResourcesDisk
  instanceType : Option String
deriving DecidableEq, Repr

/-- PostgresqlInstanceSpec -/
structure PGISpec where
  availability : Option SpecAvailability
  backups : Option SpecBackups
  flags : Option (List String)
  labels : Option KVList
  location : Option SpecLocation
  maintenance : Option SpecMaintenance
  name : String
  networking : Option SpecNetworking
  paused : Bool
  resources : Option SpecResources
  version : Option String
deriving DecidableEq, Repr

/-- PostgresqlInstanceStatusCondition.  Timestamps are abstract
naturals (`metav1.Time` values only ever compared / copied). -/
structure StatusCondition where
  lastTransitionTime : Nat
  message : String
  reason : String
  status : String
  type : String
deriving DecidableEq, Repr

/-- PostgresqlInstanceStatus (the `ips`/`connectionName` fields play no
role in any claim and are omitted). -/
structure PGIStatus where
  conditions : List StatusCondition
deriving DecidableEq, Repr

/-- The object metadata consulted by the core: annotations, finalizers
and the deletion timestamp (0 encodes the zero time, i.e.
`DeletionTimestamp.IsZero()`), plus the object name. -/
structure ObjectMeta where
  name : String
  annotations : Option KVList
  finalizers : List String
  deletionTimestamp : Nat
deriving DecidableEq, Repr

/-- PostgresqlInstance -/
structure PGI where
  meta : ObjectMeta
  spec : PGISpec
  status : PGIStatus
deriving DecidableEq, Repr

/-! ## Constants (constants package, v1alpha1 package, admission package) -/

def allowDeletionAnnotationKey : String := "cloudsql.travelaudience.com/allow-deletion"
def v1alpha1True : String := "true"
def v1alpha1False : String := "false"
def v1alpha1Any : String := "Any"
def applicationName : String := "cloudsql-postgres-operator"

def availabilityTypeRegional : String := "Regional"
def availabilityTypeZonal : String := "Zonal"
def locationZoneAny : String := v1alpha1Any
def maintenanceDayAny : String := v1alpha1Any
def maintenanceHourAny : String := v1alpha1Any
def diskTypeHDD : String := "HDD"
def diskTypeSSD : String := "SSD"
def version96 : String := "9.6"

def conditionTypeCreated : String := "Created"
def conditionTypeReady : String := "Ready"
def conditionTypeUpToDate : String := "UpToDate"
def conditionTrue : String := "True"
def conditionFalse : String := "False"
def conditionUnknown : String := "Unknown"

def reasonConflict : String := "Conflict"
def reasonInstanceCreated : String := "InstanceCreated"
def reasonInstanceNotReady : String := "InstanceNotReady"
def reasonInstanceReady : String := "InstanceReady"
def reasonInstanceUpdated : String := "InstanceUpdated"
def reasonInstanceUpToDate : String := "InstanceUpToDate"
def reasonInvalidSpec : String := "InvalidSpec"
def reasonNameUnavailable : String := "NameUnavailable"
def reasonOperationInProgress : String := "OperationInProgress"
def reasonUnexpectedError : String := "UnexpectedError"

def sizeMinimumGbLowerBound : Int := 10
def nameProjectIDMaxLength : Nat := 97

def availabilityTypeDefault : String := availabilityTypeZonal
def backupsDailyEnabledDefault : Bool := true
def backupsDailyStartTimeDefault : String := "00:00"
def locationRegionDefault : String := "europe-west1"
def locationZoneDefault : String := locationZoneAny
def maintenanceDayDefault : String := maintenanceDayAny
def maintenanceHourDefault : String := "04:00"
def privateIPEnabledDefault : Bool := false
def privateIPNetworkDefault : String := ""
def publicIPEnabledDefault : Bool := false
def diskSizeMaximumGbDefault : Int := 0
def diskSizeMinimumGbDefault : Int := 10
def diskTypeDefault : String := diskTypeSSD
def instanceTypeDefault : String := "db-custom-1-3840"
def versionDefault : String := version96

/-! ## The two regular expressions of the admission package

`hourOfTheDayRegex` is the literal pattern of the source,
`^([01][0-9]|2[03]):00$` — note `2[03]`, which matches only the strings
"20" and "23" as the leading group. -/

def isDigitChar (c : Char) : Bool := '0' ≤ c && c ≤ '9'
def isLowerAlphaChar (c : Char) : Bool := 'a' ≤ c && c ≤ 'z'
def isLowerAlnumChar (c : Char) : Bool := isLowerAlphaChar c || isDigitChar c
def isNameMidChar (c : Char) : Bool := isLowerAlnumChar c || c = '-'

/-- `hourOfTheDayRegex.MatchString`, pattern `^([01][0-9]|2[03]):00$`. -/
def hourOfTheDayRegexMatch (s : String) : Bool :=
  match s.data with
  | [c1, c2, ':', '0', '0'] =>
    ((c1 = '0' || c1 = '1') && isDigitChar c2) || (c1 = '2' && (c2 = '0' || c2 = '3'))
  | _ => false

/-- `postgresqlInstanceSpecNameRegex.MatchString`, pattern
`^[a-z][a-z0-9-]+[a-z0-9]$`. -/
def specNameRegexMatch (s : String) : Bool :=
  match s.data with
  | [] => false
  | c0 :: rest =>
    isLowerAlphaChar c0 &&
    (match rest.getLast? with
     | none => false
     | some cl => isLowerAlnumChar cl && decide (1 ≤ rest.dropLast.length)
                  && rest.dropLast.all isNameMidChar)

/-! ## Result type of the webhook operations

A Go function returning `(*T, error)` yields `ok` or `err`; a nil
pointer dereference yields `panicked`. -/

inductive AdmResult (α : Type) where
  | ok : α → AdmResult α
  | err : String → AdmResult α
  | panicked : AdmResult α
deriving DecidableEq, Repr

def AdmResult.bind {α β : Type} : AdmResult α → (α → AdmResult β) → AdmResult β
  | .ok a, f => f a
  | .err m, _ => .err m
  | .panicked, _ => .panicked

instance : Monad AdmResult where
  pure := AdmResult.ok
  bind := AdmResult.bind

/-- Go pointer dereference `*p`: panics when the pointer is nil. -/
def deref {α : Type} : Option α → AdmResult α
  | some a => .ok a
  | none => .panicked

/-! ## The admission webhook pipeline (pkg/admission/postgresqlinstance.go)

The webhook's remote collaborators are modelled by a deterministic
environment: the configured GCP project id, and the outcome of the
`Instances.Get` probe performed for a candidate name on CREATE. -/

inductive ProbeOutcome where
  | found
  | notFound
  | failedProbe (msg : String)
deriving DecidableEq, Repr

structure AdmissionEnv where
  projectID : String
  nameProbe : String → ProbeOutcome

def specLabelsOwnerName : String := "owner"

/-- The annotation defaulting performed by
`mutatePostgresqlInstanceMetadataAnnotations`: inject allow-deletion =
"false" when the annotation is absent or empty. -/
def annsAfterStep (anns : KVList) : KVList :=
  match lookupKV anns allowDeletionAnnotationKey with
  | none => insertKV anns allowDeletionAnnotationKey v1alpha1False
  | some v =>
    if v = "" then insertKV anns allowDeletionAnnotationKey v1alpha1False else anns

/-- Step 1: `mutatePostgresqlInstanceMetadataAnnotations`. -/
def mutatePostgresqlInstanceMetadataAnnotations (m : PGI) (_prevOpt : Option PGI) :
    AdmResult PGI :=
  .ok { m with meta := { m.meta with annotations := some (annsAfterStep (m.meta.annotations.getD [])) } }

/-- Step 2: `validateAndMutatePostgresqlInstanceSpecAvailability`. -/
def validateAndMutatePostgresqlInstanceSpecAvailability (m : PGI) (_prevOpt : Option PGI) :
    AdmResult PGI :=
  let av := m.spec.availability.getD ⟨none⟩
  let ty := av.type.getD availabilityTypeDefault
  let m' := { m with spec := { m.spec with availability := some ⟨some ty⟩ } }
  if ty = availabilityTypeRegional ∨ ty = availabilityTypeZonal then .ok m'
  else .err ("the availability type of the instance must be one of \"Regional\" or \"Zonal\" (got \"" ++ ty ++ "\")")

/-- Step 3: `validateAndMutatePostgresqlInstanceSpecDailyBackups`. -/
def validateAndMutatePostgresqlInstanceSpecDailyBackups (m : PGI) (_prevOpt : Option PGI) :
    AdmResult PGI :=
  let b := m.spec.backups.getD ⟨none⟩
  let d := b.daily.getD ⟨none, none⟩
  let en := d.enabled.getD backupsDailyEnabledDefault
  let st := d.startTime.getD backupsDailyStartTimeDefault
  let m' := { m with spec := { m.spec with backups := some ⟨some ⟨some en, some st⟩⟩ } }
  if hourOfTheDayRegexMatch st then .ok m'
  else .err ("the start time for daily backups of the instance must be a valid hour of the day in 24-hour format (got \"" ++ st ++ "\")")

/-- The loop body of `validateAndMutatePostgresqlInstanceSpecFlags`:
each flag must split into exactly two parts around "=". -/
def checkFlagsFormat : List String → AdmResult Unit
  | [] => .ok ()
  | flag :: rest =>
    if (flag.splitOn "=").length = 2 then checkFlagsFormat rest
    else .err ("flags must be specified in the \"<name>=<value>\" format (got \"" ++ flag ++ "\")")

/-- Step 4: `validateAndMutatePostgresqlInstanceSpecFlags`. -/
def validateAndMutatePostgresqlInstanceSpecFlags (m : PGI) (_prevOpt : Option PGI) :
    AdmResult PGI :=
  let fl := m.spec.flags.getD []
  let m' := { m with spec := { m.spec with flags := some fl } }
  (checkFlagsFormat fl).bind (fun _ => .ok m')

/-- Step 5: `validateAndMutatePostgresqlInstanceSpecLabels`. -/
def validateAndMutatePostgresqlInstanceSpecLabels (m : PGI) (_prevOpt : Option PGI) :
    AdmResult PGI :=
  let ls := m.spec.labels.getD []
  .ok { m with spec :=
    { m.spec with labels := some (insertKV ls specLabelsOwnerName applicationName) } }

def regionChangedMsg (old new : String) : String :=
  "the region where the instance is located cannot be changed (had \"" ++ old ++ "\", got \"" ++ new ++ "\")"

/-- The UPDATE-only immutability check of
`validateAndMutatePostgresqlInstanceSpecLocation` (performed after the
defaulting, on the defaulted region). -/
def checkPrevLocation : Option PGI → String → AdmResult Unit
  | none, _ => .ok ()
  | some prev, region =>
    match prev.spec.location with
    | none => .ok ()
    | some ploc =>
      (deref ploc.region).bind (fun pregion =>
        if region ≠ pregion then .err (regionChangedMsg pregion region)
        else .ok ())

/-- Step 6: `validateAndMutatePostgresqlInstanceSpecLocation`. -/
def validateAndMutatePostgresqlInstanceSpecLocation (m : PGI) (prevOpt : Option PGI) :
    AdmResult PGI :=
  let loc := m.spec.location.getD ⟨none, none⟩
  let region := loc.region.getD locationRegionDefault
  let zone := loc.zone.getD locationZoneDefault
  let m' := { m with spec := { m.spec with location := some ⟨some region, some zone⟩ } }
  (checkPrevLocation prevOpt region).bind (fun _ => .ok m')

def validMaintenanceDay (d : String) : Bool :=
  d = maintenanceDayAny || d = "Monday" || d = "Tuesday" || d = "Wednesday" ||
  d = "Thursday" || d = "Friday" || d = "Saturday" || d = "Sunday"

/-- Step 7: `validateAndMutatePostgresqlInstanceSpecMaintenance`. -/
def validateAndMutatePostgresqlInstanceSpecMaintenance (m : PGI) (_prevOpt : Option PGI) :
    AdmResult PGI :=
  let mt := m.spec.maintenance.getD ⟨none, none⟩
  let day := mt.day.getD maintenanceDayDefault
  let hour := mt.hour.getD maintenanceHourDefault
  let m' := { m with spec := { m.spec with maintenance := some ⟨some day, some hour⟩ } }
  if validMaintenanceDay day then
    if hour = maintenanceHourAny ∨ hourOfTheDayRegexMatch hour then .ok m'
    else .err ("the hour of the day for periodic maintenance must be \"Any\" or a valid hour of the day in 24-hour format (got \"" ++ hour ++ "\")")
  else .err ("the day of the week for periodic maintenance must be \"Any\" or a valid weekday (got \"" ++ day ++ "\")")

def nameEmptyMsg : String := "the name of the instance cannot be empty"
def nameRegexMsg (n : String) : String :=
  "the name of the instance must match the \"^[a-z][a-z0-9-]+[a-z0-9]$\" regular expression (got \"" ++ n ++ "\")"
def nameLengthMsg (pid n : String) : String :=
  "the name of the instance must not exceed " ++
    toString ((nameProjectIDMaxLength : Int) - (pid.length : Int)) ++ " characters (got \"" ++ n ++ "\")"
def nameChangedMsg (old new : String) : String :=
  "the name of the instance cannot be changed (had \"" ++ old ++ "\", got \"" ++ new ++ "\")"
def nameInUseMsg (n : String) : String :=
  "the name \"" ++ n ++ "\" is already in use by an instance"
def nameProbeFailedMsg (n e : String) : String :=
  "failed to check whether \"" ++ n ++ "\" can be used as an instance name: " ++ e

/-- Step 8: `validatePostgresqlInstanceSpecName` (a `Webhook` method:
on CREATE it probes the Cloud SQL Admin API for a clashing instance). -/
def validatePostgresqlInstanceSpecName (env : AdmissionEnv) (m : PGI)
    (prevOpt : Option PGI) : AdmResult PGI :=
  match prevOpt with
  | some prev =>
    if m.spec.name ≠ prev.spec.name then
      .err (nameChangedMsg prev.spec.name m.spec.name)
    else if m.spec.name = "" then .err nameEmptyMsg
    else if ¬ specNameRegexMatch m.spec.name then .err (nameRegexMsg m.spec.name)
    else if nameProjectIDMaxLength < m.spec.name.length + env.projectID.length then
      .err (nameLengthMsg env.projectID m.spec.name)
    else .ok m
  | none =>
    if m.spec.name = "" then .err nameEmptyMsg
    else if ¬ specNameRegexMatch m.spec.name then .err (nameRegexMsg m.spec.name)
    else if nameProjectIDMaxLength < m.spec.name.length + env.projectID.length then
      .err (nameLengthMsg env.projectID m.spec.name)
    else
      match env.nameProbe m.spec.name with
      | .found => .err (nameInUseMsg m.spec.name)
      | .notFound => .ok m
      | .failedProbe e => .err (nameProbeFailedMsg m.spec.name e)

/-- The two UPDATE-only checks at the top of
`validateAndMutatePostgresqlInstanceSpecNetworking`, with the nil-pointer
dereferences of the previous object's networking fields made explicit. -/
def checkPrevNetworking : Option PGI → Bool → String → AdmResult Unit
  | none, _, _ => .ok ()
  | some prev, pe, pn =>
    (deref prev.spec.networking).bind (fun pnw =>
    (deref pnw.privateIP).bind (fun ppriv =>
    (deref ppriv.enabled).bind (fun ppe =>
      if ppe = true ∧ pe = false then
        .err "private ip access to the instance cannot be disabled after having been enabled"
      else
        (deref ppriv.network).bind (fun ppn =>
          if ppn ≠ "" ∧ pn = "" then
            .err "the resource link of the vpc network for the instance cannot be removed"
          else .ok ()))))

/-- Step 9: `validateAndMutatePostgresqlInstanceSpecNetworking`. -/
def validateAndMutatePostgresqlInstanceSpecNetworking (m : PGI) (prevOpt : Option PGI) :
    AdmResult PGI :=
  let nw := m.spec.networking.getD ⟨none, none⟩
  let priv := nw.privateIP.getD ⟨none, none⟩
  let pe := priv.enabled.getD privateIPEnabledDefault
  let pn := priv.network.getD privateIPNetworkDefault
  let pub := nw.publicIP.getD ⟨none, none⟩
  let pube := pub.enabled.getD publicIPEnabledDefault
  let ans := pub.authorizedNetworks.getD []
  let m' := { m with spec := { m.spec with networking := some ⟨some ⟨some pe, some pn⟩, some ⟨some ans, some pube⟩⟩ } }
  (checkPrevNetworking prevOpt pe pn).bind (fun _ =>
    if pe = false ∧ pube = false then
      .err "at least one of private or public ip access to the instance must be enabled"
    else if pe = true ∧ pn = "" then
      .err "the resource link of the vpc network for the instance cannot be empty"
    else .ok m')

def minSizeDecreasedMsg (old new : Int) : String :=
  "the minimum disk size for the instance cannot be decreased (had \"" ++ toString old ++ "\", got \"" ++ toString new ++ "\")"

def diskTypeChangedMsg (old new : String) : String :=
  "the disk type for the instance cannot be changed (had \"" ++ old ++ "\", got \"" ++ new ++ "\")"

/-- The two UPDATE-only checks of
`validateAndMutatePostgresqlInstanceSpecResources`. -/
def checkPrevResources : Option PGI → Int → String → AdmResult Unit
  | none, _, _ => .ok ()
  | some prev, mn, ty =>
    (deref prev.spec.resources).bind (fun prs =>
    (deref prs.disk).bind (fun pdk =>
    (deref pdk.sizeMinimumGb).bind (fun pmn =>
      if mn < pmn then .err (minSizeDecreasedMsg pmn mn)
      else
        (deref pdk.type).bind (fun pty =>
          if pty ≠ ty then .err (diskTypeChangedMsg pty ty)
          else .ok ()))))

/-- Step 10: `validateAndMutatePostgresqlInstanceSpecResources`. -/
def validateAndMutatePostgresqlInstanceSpecResources (m : PGI) (prevOpt : Option PGI) :
    AdmResult PGI :=
  let rs := m.spec.resources.getD ⟨none, none⟩
  let dk := rs.disk.getD ⟨none, none, none⟩
  let mx := dk.sizeMaximumGb.getD diskSizeMaximumGbDefault
  let mn := dk.sizeMinimumGb.getD diskSizeMinimumGbDefault
  let ty := dk.type.getD diskTypeDefault
  let it := rs.instanceType.getD instanceTypeDefault
  let m' := { m with spec := { m.spec with resources := some ⟨some ⟨some mx, some mn, some ty⟩, some it⟩ } }
  (checkPrevResources prevOpt mn ty).bind (fun _ =>
    if mn < sizeMinimumGbLowerBound then
      .err ("the minimum disk size in gb for the instance is " ++ toString sizeMinimumGbLowerBound ++ " (got \"" ++ toString mn ++ "\")")
    else if mx ≠ 0 ∧ mx < mn then
      .err ("the maximum disk size in gb for the instance must be 0 or at least " ++ toString mn ++ " (got \"" ++ toString mx ++ "\")")
    else if ty = diskTypeHDD ∨ ty = diskTypeSSD then .ok m'
    else .err ("the disk type for the instance must be one of \"HDD\" or \"SSD\" (got \"" ++ ty ++ "\")"))

def versionChangedMsg : String := "the version of the instance cannot be changed"

/-- The UPDATE-only immutability check at the top of
`validateAndMutatePostgresqlInstanceSpecVersion`.  As in the source, the
candidate's version pointer is dereferenced first, BEFORE the defaulting
that would initialise it. -/
def checkPrevVersion : Option PGI → PGI → AdmResult Unit
  | none, _ => .ok ()
  | some prev, m =>
    (deref m.spec.version).bind (fun vc =>
    (deref prev.spec.version).bind (fun vp =>
      if vc ≠ vp then .err versionChangedMsg else .ok ()))

/-- Step 11: `validateAndMutatePostgresqlInstanceSpecVersion`. -/
def validateAndMutatePostgresqlInstanceSpecVersion (m : PGI) (prevOpt : Option PGI) :
    AdmResult PGI :=
  (checkPrevVersion prevOpt m).bind (fun _ =>
    let v := m.spec.version.getD versionDefault
    let m' := { m with spec := { m.spec with version := some v } }
    if v = version96 then .ok m'
    else .err ("the version of the instance must be \"9.6\" (got \"" ++ v ++ "\")"))

/-- The ordered step list of `validateAndMutatePostgresqlInstance`,
applied left to right; the first failing step aborts the request. -/
def runWebhookOps (env : AdmissionEnv) (m : PGI) (prevOpt : Option PGI) : AdmResult PGI :=
  (mutatePostgresqlInstanceMetadataAnnotations m prevOpt).bind (fun m1 =>
  (validateAndMutatePostgresqlInstanceSpecAvailability m1 prevOpt).bind (fun m2 =>
  (validateAndMutatePostgresqlInstanceSpecDailyBackups m2 prevOpt).bind (fun m3 =>
  (validateAndMutatePostgresqlInstanceSpecFlags m3 prevOpt).bind (fun m4 =>
  (validateAndMutatePostgresqlInstanceSpecLabels m4 prevOpt).bind (fun m5 =>
  (validateAndMutatePostgresqlInstanceSpecLocation m5 prevOpt).bind (fun m6 =>
  (validateAndMutatePostgresqlInstanceSpecMaintenance m6 prevOpt).bind (fun m7 =>
  (validatePostgresqlInstanceSpecName env m7 prevOpt).bind (fun m8 =>
  (validateAndMutatePostgresqlInstanceSpecNetworking m8 prevOpt).bind (fun m9 =>
  (validateAndMutatePostgresqlInstanceSpecResources m9 prevOpt).bind (fun m10 =>
  validateAndMutatePostgresqlInstanceSpecVersion m10 prevOpt))))))))))

def deleteDeniedMsg : String :=
  "the resource cannot be deleted unless the \"cloudsql.travelaudience.com/allow-deletion\" annotation is set to \"true\""

/-- `validateAndMutatePostgresqlInstance`: the DELETE special case is
handled before the pipeline (allowed iff the allow-deletion annotation
of the existing object is exactly "true"); CREATE/UPDATE run the
pipeline on a deep copy of the current object.  Both objects nil never
occurs in practice; the Go code would dereference nil in the first step
(`DeepCopy` of a nil object returns nil). -/
def validateAndMutatePostgresqlInstance (env : AdmissionEnv)
    (currentObj previousObj : Option PGI) : AdmResult (Option PGI) :=
  match currentObj, previousObj with
  | none, some prev =>
    match lookupKV (prev.meta.annotations.getD []) allowDeletionAnnotationKey with
    | none => .err deleteDeniedMsg
    | some v => if v ≠ v1alpha1True then .err deleteDeniedMsg else .ok none
  | none, none => .panicked
  | some cur, prevOpt => (runWebhookOps env cur prevOpt).bind (fun m => .ok (some m))

/-! ## The structural diff (pkg/admission/patch.go)

`CreateRFC6902Patch` marshals both objects and hands them to a
third-party diff, which compares the marshaled representations
field-by-field and emits add/remove/replace operations, none for fields
that agree.  It is modelled here at the granularity of the object's
top-level JSON fields. -/

structure PatchOp where
  op : String
  path : String
deriving DecidableEq, Repr

def diffField {α : Type} [DecidableEq α] (path : String) (a b : α) : List PatchOp :=
  if a = b then [] else [⟨"replace", path⟩]

def createRFC6902PatchOps (oldObj newObj : PGI) : List PatchOp :=
  diffField "/metadata/annotations" oldObj.meta.annotations newObj.meta.annotations ++
  diffField "/metadata/finalizers" oldObj.meta.finalizers newObj.meta.finalizers ++
  diffField "/spec/availability" oldObj.spec.availability newObj.spec.availability ++
  diffField "/spec/backups" oldObj.spec.backups newObj.spec.backups ++
  diffField "/spec/flags" oldObj.spec.flags newObj.spec.flags ++
  diffField "/spec/labels" oldObj.spec.labels newObj.spec.labels ++
  diffField "/spec/location" oldObj.spec.location newObj.spec.location ++
  diffField "/spec/maintenance" oldObj.spec.maintenance newObj.spec.maintenance ++
  diffField "/spec/name" oldObj.spec.name newObj.spec.name ++
  diffField "/spec/networking" oldObj.spec.networking newObj.spec.networking ++
  diffField "/spec/paused" oldObj.spec.paused newObj.spec.paused ++
  diffField "/spec/resources" oldObj.spec.resources newObj.spec.resources ++
  diffField "/spec/version" oldObj.spec.version newObj.spec.version ++
  diffField "/status" oldObj.status newObj.status

/-- The admission decision produced by `validateAndMutateResource` for a
PostgresqlInstance request. -/
inductive AdmissionDecision where
  | allowedNoPatch
  | allowedWithPatch (ops : List PatchOp)
  | denied (msg : String)
  | panicked
deriving DecidableEq, Repr

/-- The DELETE branch of `validateAndMutateResource`: run
`validateAndMutatePostgresqlInstance` with only the previous object; on
success `currentObj` is nil, so `admissionResponseOK()` — a bare allow
with no patch — is returned. -/
def reviewDeleteRequest (env : AdmissionEnv) (prev : PGI) : AdmissionDecision :=
  match validateAndMutatePostgresqlInstance env none (some prev) with
  | .err e => .denied e
  | .panicked => .panicked
  | .ok _ => .allowedNoPatch

/-- The CREATE/UPDATE branch of `validateAndMutateResource`: run the
pipeline and return an allow carrying the RFC 6902 patch between the
current and the mutated object. -/
def reviewWriteRequest (env : AdmissionEnv) (cur : PGI) (prevOpt : Option PGI) :
    AdmissionDecision :=
  match validateAndMutatePostgresqlInstance env (some cur) prevOpt with
  | .err e => .denied e
  | .panicked => .panicked
  | .ok none => .allowedNoPatch
  | .ok (some m) => .allowedWithPatch (createRFC6902PatchOps cur m)

/-! ## Cloud SQL Admin API error classification (pkg/util/google) -/

/-- A non-nil Go `error` as seen by the controller: either a
`*googleapi.Error` carrying an HTTP status code, or any other error. -/
inductive GErr where
  | googleapi (code : Int) (msg : String)
  | other (msg : String)
deriving DecidableEq, Repr

/-- The `%v` / `err.Error()` rendering of the error. -/
def GErr.message : GErr → String
  | .googleapi _ m => m
  | .other m => m

/-- `google.IsBadRequest`: a `googleapi.Error` with code 400. -/
def IsBadRequest : GErr → Bool
  | .googleapi code _ => code = 400
  | .other _ => false

/-- `google.IsConflict`: a `googleapi.Error` with code 409. -/
def IsConflict : GErr → Bool
  | .googleapi code _ => code = 409
  | .other _ => false

/-- `google.IsNotFound`: a `googleapi.Error` with code 404. -/
def IsNotFound : GErr → Bool
  | .googleapi code _ => code = 404
  | .other _ => false

/-! ## Remote data model (the subset of `cloudsqladmin.Settings` /
`DatabaseInstance` the controller reads and writes)

`ForceSendFields` members are serialisation directives (`json:"-"`),
not part of the settings data, and are omitted.  `StorageAutoResize` is
a `*bool` in the API; instances observed from the API always carry it,
so it is modelled as a plain Bool (the update routine assigns through
the pointer). -/

structure AclEntry where
  kind : String
  name : String
  value : String
deriving DecidableEq, Repr

structure BackupConfigurationData where
  enabled : Bool
  startTime : String
deriving DecidableEq, Repr

structure IpConfigurationData where
  authorizedNetworks : Option (List AclEntry)
  ipv4Enabled : Bool
  privateNetwork : String
deriving DecidableEq, Repr

structure LocationPreferenceData where
  zone : String
deriving DecidableEq, Repr

structure MaintenanceWindowData where
  day : Int
  hour : Int
deriving DecidableEq, Repr

/-- `cloudsqladmin.Settings`.  `activationPolicy` and `settingsVersion`
are read-only from the controller's point of view: they are reported by
the API and never appear in the drift-correction comparisons. -/
structure Settings where
  activationPolicy : String
  availabilityType : String
  backupConfiguration : BackupConfigurationData
  databaseFlags : Option (List (String × String))
  dataDiskSizeGb : Int
  dataDiskType : String
  ipConfiguration : IpConfigurationData
  locationPreference : LocationPreferenceData
  maintenanceWindow : MaintenanceWindowData
  settingsVersion : Int
  storageAutoResize : Bool
  storageAutoResizeLimit : Int
  tier : String
  userLabels : Option KVList
deriving DecidableEq, Repr

structure DatabaseInstance where
  databaseVersion : String
  name : String
  region : String
  settings : Settings
  state : String
deriving DecidableEq, Repr

/-! ## The `APIValue()` conversions (postgresqlinstance_types.go) -/

/-- `PostgresqlInstanceSpecAvailabilityType.APIValue`: upper-case. -/
def availabilityTypeAPIValue (s : String) : String := s.toUpper

/-- `PostgresqlInstanceSpecFlags.APIValue`: nil for an empty (or nil)
list, otherwise the name/value pairs, skipping malformed entries. -/
def flagsAPIValue (fl : Option (List String)) : Option (List (String × String)) :=
  let l := fl.getD []
  if l.length = 0 then none
  else some (l.filterMap (fun flag =>
    match flag.splitOn "=" with
    | [n, v] => some (n, v)
    | _ => none))

/-- `PostgresqlInstanceSpecLocationZone.APIValue`: "" for "Any". -/
def zoneAPIValue (z : String) : String := if z = locationZoneAny then "" else z

/-- `PostgresqlInstanceSpecMaintenanceDay.APIValue`. -/
def maintenanceDayAPIValue (d : String) : Int :=
  if d = "Monday" then 1
  else if d = "Tuesday" then 2
  else if d = "Wednesday" then 3
  else if d = "Thursday" then 4
  else if d = "Friday" then 5
  else if d = "Saturday" then 6
  else 7

/-- `PostgresqlInstanceSpecMaintenanceHour.APIValue`: parse the string
with its ":00" suffix stripped; 0 on a parse failure. -/
def maintenanceHourAPIValue (h : String) : Int :=
  let t := if h.endsWith ":00" then h.dropRight 3 else h
  (t.toInt?).getD 0

/-- `PostgresqlInstanceSpecResourcesDiskType.APIValue`. -/
def diskTypeAPIValue (t : String) : String :=
  if t = diskTypeHDD then "PD_HDD" else "PD_SSD"

/-- `PostgresqlInstanceSpecVersion.APIValue`. -/
def versionAPIValue (_v : String) : String := "POSTGRES_9_6"

/-- `PostgresqlInstanceSpecNetworkingPublicIPAuthorizedNetworkList.APIValue`. -/
def authorizedNetworksAPIValue (l : List SpecAuthorizedNetwork) : List AclEntry :=
  l.map (fun an => ⟨"sql#aclEntry", an.name.getD "", an.cidr⟩)

/-! ## Marker strings compared against API-reported values.  Modelled
from the spec: the constants file of the repository defining them is not
under src/ (only its callers are); their exact values are immaterial to
every claim, which quantifies over the API-reported strings. -/

/-- Modelled from the spec: the cleanup finalizer marker string
(`constants.CleanupFinalizer`). -/
def cleanupFinalizer : String := "cloudsql.travelaudience.com/cleanup"

/-- Modelled from the spec: `constants.OperationStatusDone`. -/
def operationStatusDone : String := "DONE"

/-- Modelled from the spec: `constants.DatabaseInstanceStateRunnable`. -/
def databaseInstanceStateRunnable : String := "RUNNABLE"

/-- Modelled from the spec: `constants.DatabaseInstanceActivationPolicyAlways`. -/
def databaseInstanceActivationPolicyAlways : String := "ALWAYS"

/-! ## Building the desired remote settings
(`buildDatabaseInstanceSettings`)

The function runs on admitted PostgresqlInstance resources, where every
optional spec field is populated; the `getD` fallbacks below stand for
pointer dereferences that would panic in Go on a non-admitted object
and are never exercised under the admitted-spec hypotheses of the
claims. -/

def specZoneValue (p : PGI) : String :=
  (p.spec.location.getD ⟨none, none⟩).zone.getD ""

def buildDatabaseInstanceSettings (p : PGI) : Settings :=
  let daily := (p.spec.backups.getD ⟨none⟩).daily.getD ⟨none, none⟩
  let disk := (p.spec.resources.getD ⟨none, none⟩).disk.getD ⟨none, none, none⟩
  let priv := (p.spec.networking.getD ⟨none, none⟩).privateIP.getD ⟨none, none⟩
  let pub := (p.spec.networking.getD ⟨none, none⟩).publicIP.getD ⟨none, none⟩
  let day := (p.spec.maintenance.getD ⟨none, none⟩).day.getD ""
  let hour := (p.spec.maintenance.getD ⟨none, none⟩).hour.getD ""
  let mn := disk.sizeMinimumGb.getD 0
  let mx := disk.sizeMaximumGb.getD 0
  { activationPolicy := ""
    availabilityType := availabilityTypeAPIValue ((p.spec.availability.getD ⟨none⟩).type.getD "")
    backupConfiguration := ⟨daily.enabled.getD false, daily.startTime.getD ""⟩
    databaseFlags := flagsAPIValue p.spec.flags
    dataDiskSizeGb := mn
    dataDiskType := diskTypeAPIValue (disk.type.getD "")
    ipConfiguration :=
      ⟨some (authorizedNetworksAPIValue (pub.authorizedNetworks.getD [])),
       pub.enabled.getD false,
       if priv.enabled.getD false then priv.network.getD "" else ""⟩
    locationPreference := ⟨zoneAPIValue (specZoneValue p)⟩
    maintenanceWindow :=
      if day = maintenanceDayAny then ⟨0, 0⟩
      else ⟨maintenanceDayAPIValue day, maintenanceHourAPIValue hour⟩
    settingsVersion := 0
    storageAutoResize := if mx = mn then false else true
    storageAutoResizeLimit := if mx = mn then 0 else mx
    tier := (p.spec.resources.getD ⟨none, none⟩).instanceType.getD ""
    userLabels := p.spec.labels }

/-- `buildDatabaseInstance`. -/
def buildDatabaseInstance (p : PGI) : DatabaseInstance :=
  { databaseVersion := versionAPIValue ((p.spec.version).getD "")
    name := p.spec.name
    region := (p.spec.location.getD ⟨none, none⟩).region.getD ""
    settings := buildDatabaseInstanceSettings p
    state := "" }

/-! ## Drift detection (`updateDatabaseInstanceSettings`) -/

/-- One if-block of `updateDatabaseInstanceSettings`: compare the
current `.settings.availabilityType` against the desired one and
overwrite it (recording `mustUpdate = true`) when they differ; each of
the following `upd…` functions mirrors one further if-block of the
source in the same way, threading the (settings, mustUpdate) pair. -/
def updAvailabilityType (ds : Settings) (su : Settings × Bool) : Settings × Bool :=
  if su.1.availabilityType ≠ ds.availabilityType then
    ({ su.1 with availabilityType := ds.availabilityType }, true)
  else su

def updBackupEnabled (ds : Settings) (su : Settings × Bool) : Settings × Bool :=
  if su.1.backupConfiguration.enabled ≠ ds.backupConfiguration.enabled then
    ({ su.1 with backupConfiguration := { su.1.backupConfiguration with enabled := ds.backupConfiguration.enabled } }, true)
  else su

def updBackupStartTime (ds : Settings) (su : Settings × Bool) : Settings × Bool :=
  if su.1.backupConfiguration.startTime ≠ ds.backupConfiguration.startTime then
    ({ su.1 with backupConfiguration := { su.1.backupConfiguration with startTime := ds.backupConfiguration.startTime } }, true)
  else su

def updDatabaseFlags (ds : Settings) (su : Settings × Bool) : Settings × Bool :=
  if su.1.databaseFlags ≠ ds.databaseFlags then
    ({ su.1 with databaseFlags := ds.databaseFlags }, true)
  else su

def updDataDiskSizeGb (ds : Settings) (su : Settings × Bool) : Settings × Bool :=
  if su.1.dataDiskSizeGb ≠ ds.dataDiskSizeGb then
    ({ su.1 with dataDiskSizeGb := ds.dataDiskSizeGb }, true)
  else su

def updAuthorizedNetworks (ds : Settings) (su : Settings × Bool) : Settings × Bool :=
  if su.1.ipConfiguration.authorizedNetworks ≠ ds.ipConfiguration.authorizedNetworks then
    ({ su.1 with ipConfiguration := { su.1.ipConfiguration with authorizedNetworks := ds.ipConfiguration.authorizedNetworks } }, true)
  else su

def updIpv4Enabled (ds : Settings) (su : Settings × Bool) : Settings × Bool :=
  if su.1.ipConfiguration.ipv4Enabled ≠ ds.ipConfiguration.ipv4Enabled then
    ({ su.1 with ipConfiguration := { su.1.ipConfiguration with ipv4Enabled := ds.ipConfiguration.ipv4Enabled } }, true)
  else su

def updPrivateNetwork (ds : Settings) (su : Settings × Bool) : Settings × Bool :=
  if su.1.ipConfiguration.privateNetwork ≠ ds.ipConfiguration.privateNetwork then
    ({ su.1 with ipConfiguration := { su.1.ipConfiguration with privateNetwork := ds.ipConfiguration.privateNetwork } }, true)
  else su

/-- The zone if-block: guarded by the spec's zone not being "Any". -/
def updZone (p : PGI) (ds : Settings) (su : Settings × Bool) : Settings × Bool :=
  if specZoneValue p ≠ locationZoneAny ∧ su.1.locationPreference.zone ≠ ds.locationPreference.zone then
    ({ su.1 with locationPreference := { su.1.locationPreference with zone := ds.locationPreference.zone } }, true)
  else su

def updMaintenanceDay (ds : Settings) (su : Settings × Bool) : Settings × Bool :=
  if su.1.maintenanceWindow.day ≠ ds.maintenanceWindow.day then
    ({ su.1 with maintenanceWindow := { su.1.maintenanceWindow with day := ds.maintenanceWindow.day } }, true)
  else su

def updMaintenanceHour (ds : Settings) (su : Settings × Bool) : Settings × Bool :=
  if su.1.maintenanceWindow.hour ≠ ds.maintenanceWindow.hour then
    ({ su.1 with maintenanceWindow := { su.1.maintenanceWindow with hour := ds.maintenanceWindow.hour } }, true)
  else su

def updStorageAutoResize (ds : Settings) (su : Settings × Bool) : Settings × Bool :=
  if su.1.storageAutoResize ≠ ds.storageAutoResize then
    ({ su.1 with storageAutoResize := ds.storageAutoResize }, true)
  else su

def updStorageAutoResizeLimit (ds : Settings) (su : Settings × Bool) : Settings × Bool :=
  if su.1.storageAutoResizeLimit ≠ ds.storageAutoResizeLimit then
    ({ su.1 with storageAutoResizeLimit := ds.storageAutoResizeLimit }, true)
  else su

def updTier (ds : Settings) (su : Settings × Bool) : Settings × Bool :=
  if su.1.tier ≠ ds.tier then ({ su.1 with tier := ds.tier }, true) else su

def updUserLabels (ds : Settings) (su : Settings × Bool) : Settings × Bool :=
  if su.1.userLabels ≠ ds.userLabels then ({ su.1 with userLabels := ds.userLabels }, true)
  else su

def updateDatabaseInstanceSettings (p : PGI) (di : DatabaseInstance) :
    DatabaseInstance × Bool :=
  let ds := buildDatabaseInstanceSettings p
  let r :=
    updUserLabels ds (updTier ds (updStorageAutoResizeLimit ds (updStorageAutoResize ds
      (updMaintenanceHour ds (updMaintenanceDay ds (updZone p ds (updPrivateNetwork ds
        (updIpv4Enabled ds (updAuthorizedNetworks ds (updDataDiskSizeGb ds
          (updDatabaseFlags ds (updBackupStartTime ds (updBackupEnabled ds
            (updAvailabilityType ds (di.settings, false)))))))))))))))
  ({ di with settings := r.1 }, r.2)

/-! ## Status conditions (`setPostgresqlInstanceCondition`) -/

/-- The search/overwrite loop of `setPostgresqlInstanceCondition`: the
first condition of the new condition's type is overwritten in place
(keeping its last transition time when the status is unchanged); if
none exists the new condition is appended. -/
def setConditionInList (newC : StatusCondition) : List StatusCondition → List StatusCondition
  | [] => [newC]
  | cdn :: rest =>
    if cdn.type ≠ newC.type then cdn :: setConditionInList newC rest
    else
      (if cdn.status = newC.status then { newC with lastTransitionTime := cdn.lastTransitionTime }
       else newC) :: rest

def setPostgresqlInstanceCondition (now : Nat) (p : PGI)
    (conditionType conditionStatus conditionReason conditionMessage : String) : PGI :=
  let newC : StatusCondition :=
    { lastTransitionTime := now
      message := conditionMessage
      reason := conditionReason
      status := conditionStatus
      type := conditionType }
  { p with status := { p.status with conditions := setConditionInList newC p.status.conditions } }

/-! ## The reconciliation pass (`processQueueItem` and helpers)

Every external call the controller performs is recorded as an event, so
that ordering claims can be stated over the emitted trace.  The
environment fixes, per call site, the deterministic outcome of the
external collaborator. -/

inductive Ev where
  | patchInstance (finalizers : List String)
  | remoteGet (name : String)
  | remoteInsert (name : String)
  | remoteDelete (name : String)
  | remoteListOps (name : String)
  | remoteUserUpdate (name : String)
  | remoteInstanceUpdate (name : String)
  | secretGet (name : String)
  | secretCreate (name : String)
  | secretUpdate (name : String)
  | patchStatus
deriving DecidableEq, Repr

/-- Events that are calls to the remote (Cloud SQL Admin) database API. -/
def Ev.isCloudsqlCall : Ev → Bool
  | .remoteGet _ => true
  | .remoteInsert _ => true
  | .remoteDelete _ => true
  | .remoteListOps _ => true
  | .remoteUserUpdate _ => true
  | .remoteInstanceUpdate _ => true
  | _ => false

/-- Events belonging to the finalizer/deletion phase of a pass. -/
def Ev.isDeletionPhase : Ev → Bool
  | .remoteGet _ => true
  | .remoteDelete _ => true
  | .patchInstance _ => true
  | _ => false

inductive RemoteGetResult where
  | okInst (di : DatabaseInstance)
  | errG (e : GErr)
deriving DecidableEq, Repr

/-- One element of the list returned by `Operations.List` (newest
first); `errors` carries the (code, message) pairs of `lastOp.Error`. -/
structure OpInfo where
  name : String
  operationType : String
  status : String
  errors : List (String × String)
deriving DecidableEq, Repr

inductive ListOpsResult where
  | okOps (ops : List OpInfo)
  | errG (e : GErr)
deriving DecidableEq, Repr

inductive SecretGetResult where
  | okSecret (passwordSet : Bool)
  | notFound
  | errK (msg : String)
deriving DecidableEq, Repr

/-- `errorMessage += fmt.Sprintf("%s; %q", err.Code, err.Message)`. -/
def opErrorMessage (errs : List (String × String)) : String :=
  errs.foldl (fun acc cm => acc ++ cm.1 ++ "; \"" ++ cm.2 ++ "\"") ""

/-- `isOperationInProgressOrFailed` (after the `Operations.List` call):
returns (inProgressOrFailed, id, type, status, errorMessage) or the
listing error. -/
def isOperationInProgressOrFailed (r : ListOpsResult) :
    Except GErr (Bool × String × String × String × String) :=
  match r with
  | .errG e => .error e
  | .okOps [] => .ok (false, "", "", "", "")
  | .okOps (lastOp :: _) =>
    if lastOp.status = operationStatusDone ∧ lastOp.errors.length = 0 then
      .ok (false, lastOp.name, lastOp.operationType, lastOp.status, "")
    else
      .ok (true, lastOp.name, lastOp.operationType, lastOp.status, opErrorMessage lastOp.errors)

/-- The outcomes, per call site, of the external calls a single pass of
`processQueueItem` may perform.  `Option GErr` / `Option String` fields
are the returned error (none = success). -/
structure SyncEnv where
  now : Nat
  patchAddFinalizerResult : Option String
  getForDelete : RemoteGetResult
  deleteResult : Option GErr
  patchRemoveFinalizerResult : Option String
  existenceGet : RemoteGetResult
  insertResult : Option GErr
  getAfterCreate : RemoteGetResult
  listOps : ListOpsResult
  secretGetResult : SecretGetResult
  secretCreateResult : Option String
  userUpdateResult : Option GErr
  secretUpdateResult : Option String
  updateResult : Option GErr
  getAfterUpdate : RemoteGetResult
  patchStatusResult : Option String
deriving Repr

/-- The environment slice consumed by `createInstance`. -/
structure CreateEnv where
  now : Nat
  insertResult : Option GErr
  getAfterCreate : RemoteGetResult
deriving Repr

def nameUnavailableMsg (n : String) : String :=
  "the name \"" ++ n ++ "\" seems to be unavailable - has an instance with such a name been deleted recently?"

/-- `createInstance`: insert the built DatabaseInstance; classify a
failure by provider status (409 conflict ⇒ Created=False/NameUnavailable,
no error; 400 ⇒ Created=False/InvalidSpec, no error; anything else ⇒
Created=False/UnexpectedError, error propagated); on success set
Created=True/InstanceCreated and re-fetch.  Returns the events, the
updated resource, the fetched instance (nil on failure) and the
propagated error. -/
def createInstance (env : CreateEnv) (p : PGI) :
    List Ev × PGI × Option DatabaseInstance × Option GErr :=
  let inst := buildDatabaseInstance p
  match env.insertResult with
  | some e =>
    if IsConflict e then
      let message := nameUnavailableMsg inst.name
      ([.remoteInsert inst.name],
       setPostgresqlInstanceCondition env.now p conditionTypeCreated conditionFalse reasonNameUnavailable message,
       none, none)
    else if IsBadRequest e then
      let message := "the instance's specification is invalid: " ++ e.message
      ([.remoteInsert inst.name],
       setPostgresqlInstanceCondition env.now p conditionTypeCreated conditionFalse reasonInvalidSpec message,
       none, none)
    else
      ([.remoteInsert inst.name],
       setPostgresqlInstanceCondition env.now p conditionTypeCreated conditionFalse reasonUnexpectedError e.message,
       none, some e)
  | none =>
    let p' := setPostgresqlInstanceCondition env.now p conditionTypeCreated conditionTrue reasonInstanceCreated "the instance has been created"
    match env.getAfterCreate with
    | .okInst di => ([.remoteInsert inst.name, .remoteGet p.spec.name], p', some di, none)
    | .errG e => ([.remoteInsert inst.name, .remoteGet p.spec.name], p', none, some e)

/-- `deleteInstance`: look the instance up first ("not found" means it
is already gone and counts as success), then issue the delete. -/
def deleteInstance (env : SyncEnv) (p : PGI) : List Ev × Option GErr :=
  match env.getForDelete with
  | .errG e =>
    if IsNotFound e then ([.remoteGet p.spec.name], none)
    else ([.remoteGet p.spec.name], some e)
  | .okInst _ =>
    match env.deleteResult with
    | some e => ([.remoteGet p.spec.name, .remoteDelete p.spec.name], some e)
    | none => ([.remoteGet p.spec.name, .remoteDelete p.spec.name], none)

/-- `maybeUpdateInstance`: diff the observed settings against the
desired ones; update remotely when anything differs, classifying the
outcome exactly as creation does (conflict / bad request swallowed,
other errors propagated); re-fetch after a successful update. -/
def maybeUpdateInstance (env : SyncEnv) (p : PGI) (di : DatabaseInstance) :
    List Ev × PGI × Option DatabaseInstance × Option GErr :=
  let (di', mustUpdate) := updateDatabaseInstanceSettings p di
  if mustUpdate = false then
    ([],
     setPostgresqlInstanceCondition env.now p conditionTypeUpToDate conditionTrue reasonInstanceUpToDate "the instance's settings are up-to-date",
     some di', none)
  else
    match env.updateResult with
    | some e =>
      if IsConflict e then
        let message := "conflict reported while trying to update the instance's settings - maybe another update is currently in progress? " ++ e.message
        ([.remoteInstanceUpdate di'.name],
         setPostgresqlInstanceCondition env.now p conditionTypeUpToDate conditionFalse reasonConflict message,
         none, none)
      else if IsBadRequest e then
        let message := "the instance's settings are invalid: " ++ e.message
        ([.remoteInstanceUpdate di'.name],
         setPostgresqlInstanceCondition env.now p conditionTypeUpToDate conditionFalse reasonInvalidSpec message,
         none, none)
      else
        ([.remoteInstanceUpdate di'.name],
         setPostgresqlInstanceCondition env.now p conditionTypeUpToDate conditionFalse reasonUnexpectedError e.message,
         none, some e)
    | none =>
      let p' := setPostgresqlInstanceCondition env.now p conditionTypeUpToDate conditionTrue reasonInstanceUpdated "the instance has been updated"
      match env.getAfterUpdate with
      | .okInst di2 => ([.remoteInstanceUpdate di'.name, .remoteGet p.spec.name], p', some di2, none)
      | .errG e => ([.remoteInstanceUpdate di'.name, .remoteGet p.spec.name], p', none, some e)

/-- `setInstancePassword`: update the "postgres" user's password via
the Admin API, then write username/password into the secret. -/
def setInstancePassword (env : SyncEnv) (p : PGI) : List Ev × Option String :=
  match env.userUpdateResult with
  | some e => ([.remoteUserUpdate p.spec.name], some e.message)
  | none =>
    match env.secretUpdateResult with
    | some e => ([.remoteUserUpdate p.spec.name, .secretUpdate p.meta.name], some e)
    | none => ([.remoteUserUpdate p.spec.name, .secretUpdate p.meta.name], none)

/-- `utilerrors.NewAggregate([]error{patchErr, err})` flattened to an
optional message. -/
def aggregateErrs (patchErr bodyErr : Option String) : Option String :=
  match patchErr, bodyErr with
  | none, none => none
  | some a, none => some a
  | none, some b => some b
  | some a, some b => some (a ++ "; " ++ b)

/-- The main body of `processQueueItem` (existence check onwards),
returning the emitted events, the locally-updated resource (whose
status is persisted by the deferred patch) and the body's error. -/
def syncInstance (env : SyncEnv) (p : PGI) : List Ev × PGI × Option String :=
  let getEv : Ev := .remoteGet p.spec.name
  -- existence check / creation
  let afterCreate :
      List Ev × PGI × Option DatabaseInstance × Option String :=
    match env.existenceGet with
    | .okInst di => ([getEv], p, some di, none)
    | .errG e =>
      if ¬ IsNotFound e then
        ([getEv], p, none,
         some ("failed to check if an instance with name \"" ++ p.spec.name ++ "\" exists: " ++ e.message))
      else
        let (evs, p1, inst?, cerr) :=
          createInstance ⟨env.now, env.insertResult, env.getAfterCreate⟩ p
        match cerr with
        | some ce => (getEv :: evs, p1, none, some ce.message)
        | none =>
          match inst? with
          | none => (getEv :: evs, p1, none, none)     -- permanent failure: stop, no error
          | some di => (getEv :: evs, p1, some di, none)
  match afterCreate with
  | (evs, p1, none, berr) => (evs, p1, berr)
  | (evs, p1, some inst, _) =>
    -- operation-status check
    let evs := evs ++ [.remoteListOps p1.spec.name]
    match isOperationInProgressOrFailed env.listOps with
    | .error e =>
      let message := "failed to understand if the instance has any pending operations"
      (evs,
       setPostgresqlInstanceCondition env.now p1 conditionTypeReady conditionUnknown reasonUnexpectedError message,
       some e.message)
    | .ok (opFlag, opID, opType, opStatus, opErrMsg) =>
      if opFlag = true ∧ opErrMsg = "" then
        let message := "the instance has an ongoing operation (id: \"" ++ opID ++ "\", type: \"" ++ opType ++ "\", status: \"" ++ opStatus ++ "\")"
        (evs,
         setPostgresqlInstanceCondition env.now p1 conditionTypeReady conditionFalse reasonOperationInProgress message,
         none)
      else if opFlag = true ∧ opErrMsg ≠ "" then
        let message := "the last operation on the instance has failed (id: \"" ++ opID ++ "\", type: \"" ++ opType ++ "\", status: \"" ++ opStatus ++ "\", errors: \"" ++ opErrMsg ++ "\")"
        (evs,
         setPostgresqlInstanceCondition env.now p1 conditionTypeReady conditionFalse reasonUnexpectedError message,
         none)
      else
        -- runtime-state gate
        if inst.state ≠ databaseInstanceStateRunnable then
          let message := "the instance is in the \"" ++ inst.state ++ "\" state"
          (evs,
           setPostgresqlInstanceCondition env.now p1 conditionTypeReady conditionFalse reasonInstanceNotReady message,
           none)
        else if inst.settings.activationPolicy ≠ databaseInstanceActivationPolicyAlways then
          let message := "the instance is currently shut down"
          (evs,
           setPostgresqlInstanceCondition env.now p1 conditionTypeReady conditionFalse reasonInstanceNotReady message,
           none)
        else
          let p2 := setPostgresqlInstanceCondition env.now p1 conditionTypeReady conditionTrue reasonInstanceReady "the instance is running and ready"
          -- credentials secret
          let evs := evs ++ [.secretGet p2.meta.name]
          let secretPhase : List Ev × Option Bool × Option String :=
            match env.secretGetResult with
            | .errK msg => ([], none, some msg)
            | .okSecret pw => ([], some pw, none)
            | .notFound =>
              match env.secretCreateResult with
              | some ce => ([.secretCreate p2.meta.name], none, some ce)
              | none => ([.secretCreate p2.meta.name], some false, none)
          match secretPhase with
          | (sevs, none, serr) => (evs ++ sevs, p2, serr)
          | (sevs, some passwordSet, _) =>
            let evs := evs ++ sevs
            let passPhase : List Ev × Option String :=
              if passwordSet then ([], none)
              else setInstancePassword env p2
            match passPhase with
            | (pevs, some perr) => (evs ++ pevs, p2, some perr)
            | (pevs, none) =>
              let evs := evs ++ pevs
              -- drift correction
              let (uevs, p3, _, uerr) := maybeUpdateInstance env p2 inst
              (evs ++ uevs, p3, uerr.map GErr.message)

/-- `processQueueItem` from the point where the resource has been read
from the cache and deep-copied (the preceding steps parse the key and
read the local cache only; a cache miss returns immediately with no
external call).  Returns the trace of external calls and the pass's
error. -/
def processQueueItem (env : SyncEnv) (i : PGI) : List Ev × Option String :=
  if i.meta.deletionTimestamp = 0 then
    -- not being deleted: the cleanup finalizer must be present before
    -- anything else happens
    if cleanupFinalizer ∈ i.meta.finalizers then
      processMainBody env i i
    else
      let p := { i with meta := { i.meta with finalizers := i.meta.finalizers ++ [cleanupFinalizer] } }
      match env.patchAddFinalizerResult with
      | some e => ([.patchInstance p.meta.finalizers], some e)
      | none =>
        let (evs, r) := processMainBody env i p
        (.patchInstance p.meta.finalizers :: evs, r)
  else
    -- being deleted: run the finalizer, then stop regardless of outcome
    if cleanupFinalizer ∈ i.meta.finalizers then
      let (devs, derr) := deleteInstance env i
      match derr with
      | some e => (devs, some e.message)
      | none =>
        let p := { i with meta := { i.meta with finalizers := i.meta.finalizers.filter (fun f => f ≠ cleanupFinalizer) } }
        match env.patchRemoveFinalizerResult with
        | some e => (devs ++ [.patchInstance p.meta.finalizers], some e)
        | none => (devs ++ [.patchInstance p.meta.finalizers], none)
    else ([], none)
where
  /-- The paused check, the deferred status patch and the main body. -/
  processMainBody (env : SyncEnv) (i p : PGI) : List Ev × Option String :=
    if p.spec.paused then ([], none)
    else
      let (evs, p', berr) := syncInstance env p
      -- deferred: patchPostgresqlInstanceStatus(i, p') — skipped when
      -- the objects are equal, and its error is aggregated with the
      -- body's error
      if i = p' then (evs, berr)
      else
        match env.patchStatusResult with
        | some pe => (evs ++ [.patchStatus], aggregateErrs (some pe) berr)
        | none => (evs ++ [.patchStatus], berr)

/-! # Theorems

## Helper lemmas about the condition list -/

/-- The first condition of a given type in a resource's status. -/
def findCondition (p : PGI) (t : String) : Option StatusCondition :=
  p.status.conditions.find? (fun c => c.type == t)

theorem type_ite_status (b : Prop) [Decidable b] (x : StatusCondition) (n : Nat) :
    (if b then { x with lastTransitionTime := n } else x).type = x.type := by
  split <;> rfl

theorem mem_setConditionInList {c newC : StatusCondition} {l : List StatusCondition}
    (h : c ∈ setConditionInList newC l) : c.type = newC.type ∨ c ∈ l := by
  induction l with
  | nil =>
    simp only [setConditionInList, List.mem_singleton] at h
    subst h; left; rfl
  | cons cdn rest ih =>
    simp only [setConditionInList] at h
    split at h
    · rcases List.mem_cons.mp h with h1 | h2
      · right; exact h1 ▸ List.mem_cons_self _ _
      · rcases ih h2 with h3 | h4
        · left; exact h3
        · right; exact List.mem_cons_of_mem _ h4
    · rcases List.mem_cons.mp h with h1 | h2
      · left
        rw [h1]
        split <;> rfl
      · right; exact List.mem_cons_of_mem _ h2

theorem setConditionInList_pairwise {newC : StatusCondition} {l : List StatusCondition}
    (h : l.Pairwise (fun a b => a.type ≠ b.type)) :
    (setConditionInList newC l).Pairwise (fun a b => a.type ≠ b.type) := by
  induction l with
  | nil => simp [setConditionInList]
  | cons cdn rest ih =>
    rcases List.pairwise_cons.mp h with ⟨hhd, htl⟩
    simp only [setConditionInList]
    split
    · rename_i hne
      refine List.pairwise_cons.mpr ⟨?_, ih htl⟩
      intro c hc
      rcases mem_setConditionInList hc with h1 | h2
      · rw [h1]; exact hne
      · exact hhd c h2
    · rename_i heq
      have hcdn : cdn.type = newC.type := not_not.mp heq
      refine List.pairwise_cons.mpr ⟨?_, htl⟩
      intro c hc
      have ht : (if cdn.status = newC.status then { newC with lastTransitionTime := cdn.lastTransitionTime } else newC).type = newC.type := by
        split <;> rfl
      rw [ht, ← hcdn]
      exact hhd c hc

theorem find?_setConditionInList_none {newC : StatusCondition} {l : List StatusCondition}
    (h : l.find? (fun c => c.type == newC.type) = none) :
    (setConditionInList newC l).find? (fun c => c.type == newC.type) = some newC := by
  induction l with
  | nil => simp [setConditionInList, List.find?]
  | cons cdn rest ih =>
    cases hb : (cdn.type == newC.type) with
    | true =>
      rw [List.find?_cons_of_pos (p := fun (c : StatusCondition) => c.type == newC.type) rest hb] at h
      exact absurd h (by simp)
    | false =>
      rw [List.find?_cons_of_neg (p := fun (c : StatusCondition) => c.type == newC.type) rest (by simp [hb])] at h
      simp only [setConditionInList]
      rw [if_pos (by simpa using hb)]
      rw [List.find?_cons_of_neg (p := fun (c : StatusCondition) => c.type == newC.type) _ (by simp [hb])]
      exact ih h

theorem find?_setConditionInList_some {newC old : StatusCondition} {l : List StatusCondition}
    (h : l.find? (fun c => c.type == newC.type) = some old) :
    (setConditionInList newC l).find? (fun c => c.type == newC.type) =
      some (if old.status = newC.status then { newC with lastTransitionTime := old.lastTransitionTime } else newC) := by
  induction l with
  | nil => simp [List.find?] at h
  | cons cdn rest ih =>
    cases hb : (cdn.type == newC.type) with
    | true =>
      have hold : old = cdn := by
        rw [List.find?_cons_of_pos (p := fun (c : StatusCondition) => c.type == newC.type) rest hb] at h
        exact (Option.some.inj h).symm
      subst hold
      simp only [setConditionInList]
      rw [if_neg (by simpa using (beq_iff_eq.mp hb))]
      apply List.find?_cons_of_pos
      split <;> simp
    | false =>
      rw [List.find?_cons_of_neg (p := fun (c : StatusCondition) => c.type == newC.type) rest (by simp [hb])] at h
      simp only [setConditionInList]
      rw [if_pos (by simpa using hb)]
      rw [List.find?_cons_of_neg (p := fun (c : StatusCondition) => c.type == newC.type) _ (by simp [hb])]
      exact ih h

/-- After `setPostgresqlInstanceCondition`, the first condition of the
set type carries the requested status/reason/message. -/
theorem setCondition_conditions_eq (now : Nat) (p : PGI) (t st r msg : String) :
    (setPostgresqlInstanceCondition now p t st r msg).status.conditions =
      setConditionInList ⟨now, msg, r, st, t⟩ p.status.conditions := rfl

theorem findCondition_setCondition (now : Nat) (p : PGI) (t st r msg : String) :
    ∃ c, findCondition (setPostgresqlInstanceCondition now p t st r msg) t = some c ∧
      c.status = st ∧ c.reason = r ∧ c.message = msg ∧ c.type = t := by
  unfold findCondition
  rw [setCondition_conditions_eq]
  cases h : p.status.conditions.find? (fun c => c.type == t) with
  | none =>
    exact ⟨⟨now, msg, r, st, t⟩,
      @find?_setConditionInList_none ⟨now, msg, r, st, t⟩ _ h, rfl, rfl, rfl, rfl⟩
  | some old =>
    refine ⟨_, @find?_setConditionInList_some ⟨now, msg, r, st, t⟩ old _ h, ?_, ?_, ?_, ?_⟩ <;>
      (split <;> rfl)

/-! ## C8 -/

/-- C8: `setPostgresqlInstanceCondition` preserves at-most-one-condition
-per-type, and changes a condition's lastTransitionTime only when its
status changes: inserting a new type stamps the current time, rewriting
an existing type with the same status keeps the old transition time, and
rewriting with a different status stamps the current time. -/
theorem claim_C8 (now : Nat) (p : PGI) (t st r msg : String) :
    (p.status.conditions.Pairwise (fun a b => a.type ≠ b.type) →
       (setPostgresqlInstanceCondition now p t st r msg).status.conditions.Pairwise
         (fun a b => a.type ≠ b.type)) ∧
    (findCondition p t = none →
       findCondition (setPostgresqlInstanceCondition now p t st r msg) t =
         some ⟨now, msg, r, st, t⟩) ∧
    (∀ old, findCondition p t = some old → old.status = st →
       findCondition (setPostgresqlInstanceCondition now p t st r msg) t =
         some ⟨old.lastTransitionTime, msg, r, st, t⟩) ∧
    (∀ old, findCondition p t = some old → old.status ≠ st →
       findCondition (setPostgresqlInstanceCondition now p t st r msg) t =
         some ⟨now, msg, r, st, t⟩) := by
  refine ⟨?_, ?_, ?_, ?_⟩
  · intro h
    rw [setCondition_conditions_eq]
    exact setConditionInList_pairwise h
  · intro h
    unfold findCondition at h ⊢
    rw [setCondition_conditions_eq]
    exact @find?_setConditionInList_none ⟨now, msg, r, st, t⟩ _ h
  · intro old h hst
    unfold findCondition at h ⊢
    rw [setCondition_conditions_eq]
    have h2 := @find?_setConditionInList_some ⟨now, msg, r, st, t⟩ old _ h
    rw [if_pos hst] at h2
    exact h2
  · intro old h hst
    unfold findCondition at h ⊢
    rw [setCondition_conditions_eq]
    have h2 := @find?_setConditionInList_some ⟨now, msg, r, st, t⟩ old _ h
    rw [if_neg hst] at h2
    exact h2

/-- A resource carrying one Ready=True condition stamped at time 5. -/
def pgiC8 : PGI :=
  { meta := ⟨"inst", none, [], 0⟩
    spec :=
      { availability := none, backups := none, flags := none, labels := none
        location := none, maintenance := none, name := "inst", networking := none
        paused := false, resources := none, version := none }
    status := ⟨[⟨5, "m", "r", "True", "Ready"⟩]⟩ }

theorem claim_C8_witness :
    findCondition (setPostgresqlInstanceCondition 7 pgiC8 "Ready" "True" "r2" "m2") "Ready" =
      some ⟨5, "m2", "r2", "True", "Ready"⟩ :=
  (claim_C8 7 pgiC8 "Ready" "True" "r2" "m2").2.2.1 ⟨5, "m", "r", "True", "Ready"⟩ rfl rfl

/-! ## Shared concrete objects -/

/-- A bare PostgresqlInstance: only the required fields are set. -/
def pgiBare : PGI :=
  { meta := ⟨"inst", none, [], 0⟩
    spec :=
      { availability := none, backups := none, flags := none, labels := none
        location := none, maintenance := none, name := "inst", networking := none
        paused := false, resources := none, version := none }
    status := ⟨[]⟩ }

/-- A fully defaulted, admission-valid PostgresqlInstance (the result
of admitting a minimal spec with public IP enabled). -/
def pgiFull : PGI :=
  { meta := ⟨"inst", some [(allowDeletionAnnotationKey, v1alpha1False)], [], 0⟩
    spec :=
      { availability := some ⟨some availabilityTypeZonal⟩
        backups := some ⟨some ⟨some true, some "00:00"⟩⟩
        flags := some []
        labels := some [(specLabelsOwnerName, applicationName)]
        location := some ⟨some locationRegionDefault, some locationZoneAny⟩
        maintenance := some ⟨some maintenanceDayAny, some "04:00"⟩
        name := "inst"
        networking := some ⟨some ⟨some false, some ""⟩, some ⟨some [], some true⟩⟩
        paused := false
        resources := some ⟨some ⟨some 0, some 10, some diskTypeSSD⟩, some instanceTypeDefault⟩
        version := some version96 }
    status := ⟨[]⟩ }

/-- An admission environment with a short project id whose name probe
always reports "not found". -/
def env0 : AdmissionEnv := ⟨"project", fun _ => .notFound⟩

/-! ## C1 -/

/-- C1: when the remote insert of `createInstance` fails, a 409 conflict
yields Created=False/NameUnavailable with no propagated error, a 400
invalid request yields Created=False/InvalidSpec with no propagated
error, and any other failure yields Created=False/UnexpectedError with
that very error propagated for retry. -/
theorem claim_C1 (env : CreateEnv) (p : PGI) (e : GErr)
    (hins : env.insertResult = some e) :
    (IsConflict e = true →
       (∃ c, findCondition (createInstance env p).2.1 conditionTypeCreated = some c ∧
          c.status = conditionFalse ∧ c.reason = reasonNameUnavailable) ∧
       (createInstance env p).2.2.2 = none) ∧
    (IsConflict e = false → IsBadRequest e = true →
       (∃ c, findCondition (createInstance env p).2.1 conditionTypeCreated = some c ∧
          c.status = conditionFalse ∧ c.reason = reasonInvalidSpec) ∧
       (createInstance env p).2.2.2 = none) ∧
    (IsConflict e = false → IsBadRequest e = false →
       (∃ c, findCondition (createInstance env p).2.1 conditionTypeCreated = some c ∧
          c.status = conditionFalse ∧ c.reason = reasonUnexpectedError) ∧
       (createInstance env p).2.2.2 = some e) := by
  refine ⟨?_, ?_, ?_⟩
  · intro hc
    simp only [createInstance, hins, hc, if_pos]
    obtain ⟨c, hfind, hst, hr, _, _⟩ :=
      findCondition_setCondition env.now p conditionTypeCreated conditionFalse
        reasonNameUnavailable (nameUnavailableMsg (buildDatabaseInstance p).name)
    refine ⟨⟨c, hfind, hst, hr⟩, ?_⟩
    simp
  · intro hc hb
    simp only [createInstance, hins, hc, hb]
    obtain ⟨c, hfind, hst, hr, _, _⟩ :=
      findCondition_setCondition env.now p conditionTypeCreated conditionFalse
        reasonInvalidSpec ("the instance's specification is invalid: " ++ e.message)
    refine ⟨⟨c, hfind, hst, hr⟩, ?_⟩
    simp
  · intro hc hb
    simp only [createInstance, hins, hc, hb]
    obtain ⟨c, hfind, hst, hr, _, _⟩ :=
      findCondition_setCondition env.now p conditionTypeCreated conditionFalse
        reasonUnexpectedError e.message
    refine ⟨⟨c, hfind, hst, hr⟩, ?_⟩
    simp

/-- A create environment whose insert reports a 409 conflict. -/
def envC1 : CreateEnv := ⟨0, some (GErr.googleapi 409 "conflict"), .errG (GErr.other "x")⟩

theorem claim_C1_witness :
    (∃ c, findCondition (createInstance envC1 pgiBare).2.1 conditionTypeCreated = some c ∧
       c.status = conditionFalse ∧ c.reason = reasonNameUnavailable) ∧
    (createInstance envC1 pgiBare).2.2.2 = none :=
  (claim_C1 envC1 pgiBare (GErr.googleapi 409 "conflict") rfl).1 rfl

/-! ## C5

The hour-of-the-day pattern of the source is `^([01][0-9]|2[03]):00$`:
its second alternative matches only "20" and "23", so the valid hours
"21:00" and "22:00" are rejected, although the pattern's own doc
comment (and the spec) describe it as matching hours of the day in
24-hour format. -/

/-- A minimal spec whose daily-backup start time is "21:00". -/
def pgiStart21 : PGI :=
  { pgiBare with spec := { pgiBare.spec with backups := some ⟨some ⟨some true, some "21:00"⟩⟩ } }

/-- C5: the admission pipeline accepts "20:00" and "23:00" but rejects
the equally valid hours "21:00" and "22:00" (divergence of the `2[03]`
group from the documented 24-hour format), while accepting every
"0H:00"/"1H:00" hour. -/
theorem claim_C5 :
    hourOfTheDayRegexMatch "00:00" = true ∧
    hourOfTheDayRegexMatch "19:00" = true ∧
    hourOfTheDayRegexMatch "20:00" = true ∧
    hourOfTheDayRegexMatch "23:00" = true ∧
    hourOfTheDayRegexMatch "21:00" = false ∧
    hourOfTheDayRegexMatch "22:00" = false ∧
    validateAndMutatePostgresqlInstanceSpecDailyBackups pgiStart21 none =
      .err "the start time for daily backups of the instance must be a valid hour of the day in 24-hour format (got \"21:00\")" := by
  refine ⟨?_, ?_, ?_, ?_, ?_, ?_, ?_⟩ <;> rfl

/-! ## C6

`buildDatabaseInstanceSettings` disables storage auto-resize exactly
when `sizeMaximumGb` EQUALS `sizeMinimumGb`; since an admitted spec has
`sizeMinimumGb ≥ 10`, a spec with `sizeMaximumGb = 0` takes the OTHER
branch: auto-resize is enabled with limit 0 (no limit).  The repository
end-to-end test asserts exactly this behaviour
(`StorageAutoResize == (SizeMaximumGb == 0)`), so the code, not the
claim, is authoritative. -/

/-- C6 (counterexample to the claim as stated): the fully admitted spec
`pgiFull` has sizeMaximumGb = 0 (and sizeMinimumGb = 10), yet the
desired settings have storage auto-resize ENABLED (with limit 0), not
disabled. -/
theorem claim_C6_counterexample :
    (pgiFull.spec.resources.bind SpecResources.disk).bind SpecResourcesDisk.sizeMaximumGb
        = some 0 ∧
    (buildDatabaseInstanceSettings pgiFull).storageAutoResize = true ∧
    (buildDatabaseInstanceSettings pgiFull).storageAutoResizeLimit = 0 :=
  ⟨rfl, rfl, rfl⟩

/-- C6 (amended): for every spec carrying disk bounds, the desired
settings disable storage auto-resize (flag false, limit 0) exactly when
sizeMaximumGb equals sizeMinimumGb; whenever the two differ — including
the admitted case sizeMaximumGb = 0 — auto-resize is enabled and the
limit is sizeMaximumGb. -/
theorem claim_C6 (p : PGI) (rs : SpecResources) (dk : SpecResourcesDisk) (mn mx : Int)
    (hrs : p.spec.resources = some rs) (hdk : rs.disk = some dk)
    (hmn : dk.sizeMinimumGb = some mn) (hmx : dk.sizeMaximumGb = some mx) :
    (((buildDatabaseInstanceSettings p).storageAutoResize = false ∧
        (buildDatabaseInstanceSettings p).storageAutoResizeLimit = 0) ↔ mx = mn) ∧
    (mx ≠ mn →
       (buildDatabaseInstanceSettings p).storageAutoResize = true ∧
       (buildDatabaseInstanceSettings p).storageAutoResizeLimit = mx) := by
  have hdisk : (p.spec.resources.getD ⟨none, none⟩).disk.getD ⟨none, none, none⟩ = dk := by
    rw [hrs]
    simp [hdk]
  have h1 : (buildDatabaseInstanceSettings p).storageAutoResize
      = (if mx = mn then false else true) := by
    simp only [buildDatabaseInstanceSettings, hdisk, hmx, hmn, Option.getD_some]
  have h2 : (buildDatabaseInstanceSettings p).storageAutoResizeLimit
      = (if mx = mn then 0 else mx) := by
    simp only [buildDatabaseInstanceSettings, hdisk, hmx, hmn, Option.getD_some]
  by_cases hmxmn : mx = mn
  · rw [h1, h2, if_pos hmxmn, if_pos hmxmn]
    exact ⟨⟨fun _ => hmxmn, fun _ => ⟨rfl, rfl⟩⟩, fun hne => absurd hmxmn hne⟩
  · rw [h1, h2, if_neg hmxmn, if_neg hmxmn]
    refine ⟨⟨fun hcontra => absurd hcontra.1 (by simp), fun heq => absurd heq hmxmn⟩,
      fun _ => ⟨rfl, rfl⟩⟩

theorem claim_C6_witness :
    ((buildDatabaseInstanceSettings pgiFull).storageAutoResize = true ∧
      (buildDatabaseInstanceSettings pgiFull).storageAutoResizeLimit = 0) :=
  (claim_C6 pgiFull ⟨some ⟨some 0, some 10, some diskTypeSSD⟩, some instanceTypeDefault⟩
      ⟨some 0, some 10, some diskTypeSSD⟩ 10 0 rfl rfl rfl rfl).2 (by decide)

/-! ## C3 -/

/-- C3: a DELETE admission request is allowed precisely when the
existing object carries the allow-deletion annotation with value
exactly "true" (an allowed delete producing a bare allow without a
patch); otherwise — annotation absent, empty, or any other value — it
is denied, and the denial message names the annotation. -/
theorem claim_C3 (env : AdmissionEnv) (prev : PGI) :
    (reviewDeleteRequest env prev = .allowedNoPatch ↔
       lookupKV (prev.meta.annotations.getD []) allowDeletionAnnotationKey = some v1alpha1True) ∧
    (∀ msg, reviewDeleteRequest env prev = .denied msg →
       msg = "the resource cannot be deleted unless the \"" ++ allowDeletionAnnotationKey ++
         "\" annotation is set to \"" ++ v1alpha1True ++ "\"") := by
  have hmsgval : deleteDeniedMsg =
      "the resource cannot be deleted unless the \"" ++ allowDeletionAnnotationKey ++
        "\" annotation is set to \"" ++ v1alpha1True ++ "\"" := rfl
  have hred : validateAndMutatePostgresqlInstance env none (some prev) =
      (match lookupKV (prev.meta.annotations.getD []) allowDeletionAnnotationKey with
       | none => AdmResult.err deleteDeniedMsg
       | some v =>
         if v ≠ v1alpha1True then AdmResult.err deleteDeniedMsg else AdmResult.ok none) := rfl
  have heq : reviewDeleteRequest env prev =
      (match lookupKV (prev.meta.annotations.getD []) allowDeletionAnnotationKey with
       | none => AdmissionDecision.denied deleteDeniedMsg
       | some v =>
         if v = v1alpha1True then AdmissionDecision.allowedNoPatch
         else AdmissionDecision.denied deleteDeniedMsg) := by
    unfold reviewDeleteRequest
    rw [hred]
    cases lookupKV (prev.meta.annotations.getD []) allowDeletionAnnotationKey with
    | none => rfl
    | some v =>
      by_cases hv : v = v1alpha1True
      · simp [hv]
      · simp [hv]
  rw [heq]
  cases h : lookupKV (prev.meta.annotations.getD []) allowDeletionAnnotationKey with
  | none =>
    refine ⟨⟨fun hc => absurd hc (by simp), fun hc => by simp at hc⟩, ?_⟩
    intro msg hmsg
    simp only [AdmissionDecision.denied.injEq] at hmsg
    subst hmsg
    exact hmsgval
  | some v =>
    by_cases hv : v = v1alpha1True
    · subst hv
      refine ⟨⟨fun _ => rfl, fun _ => rfl⟩, ?_⟩
      intro msg hmsg
      simp at hmsg
    · refine ⟨⟨fun hc => absurd hc (by simp [hv]), fun hc => absurd (Option.some.inj hc) hv⟩, ?_⟩
      intro msg hmsg
      simp only [if_neg hv, AdmissionDecision.denied.injEq] at hmsg
      subst hmsg
      exact hmsgval

/-! ## Association-list lemmas -/

theorem lookupKV_insertKV (l : KVList) (k v : String) :
    lookupKV (insertKV l k v) k = some v := by
  induction l with
  | nil => simp [insertKV, lookupKV]
  | cons kv rest ih =>
    by_cases hk : kv.1 = k
    · simp [insertKV, lookupKV, hk]
    · simp only [insertKV, lookupKV]
      rw [if_neg hk, lookupKV, if_neg hk]
      exact ih

theorem insertKV_lookup_self {l : KVList} {k v : String}
    (h : lookupKV l k = some v) : insertKV l k v = l := by
  induction l with
  | nil => simp [lookupKV] at h
  | cons kv rest ih =>
    by_cases hk : kv.1 = k
    · rw [lookupKV, if_pos hk] at h
      cases h
      simp only [insertKV, if_pos hk]
      rw [← hk]
    · rw [lookupKV, if_neg hk] at h
      simp only [insertKV, if_neg hk]
      rw [ih h]

/-! ## Record-update-with-current-value lemmas (structure eta) -/

theorem update_annotations_self {m : PGI} {v : Option KVList} (h : m.meta.annotations = v) :
    ({ m with meta := { m.meta with annotations := v } } : PGI) = m := by
  cases m with | mk mt sp st => cases mt; cases h; rfl

theorem update_availability_self {m : PGI} {v : Option SpecAvailability} (h : m.spec.availability = v) :
    ({ m with spec := { m.spec with availability := v } } : PGI) = m := by
  cases m with | mk mt sp st => cases sp; cases h; rfl

theorem update_backups_self {m : PGI} {v : Option SpecBackups} (h : m.spec.backups = v) :
    ({ m with spec := { m.spec with backups := v } } : PGI) = m := by
  cases m with | mk mt sp st => cases sp; cases h; rfl

theorem update_flags_self {m : PGI} {v : Option (List String)} (h : m.spec.flags = v) :
    ({ m with spec := { m.spec with flags := v } } : PGI) = m := by
  cases m with | mk mt sp st => cases sp; cases h; rfl

theorem update_labels_self {m : PGI} {v : Option KVList} (h : m.spec.labels = v) :
    ({ m with spec := { m.spec with labels := v } } : PGI) = m := by
  cases m with | mk mt sp st => cases sp; cases h; rfl

theorem update_location_self {m : PGI} {v : Option SpecLocation} (h : m.spec.location = v) :
    ({ m with spec := { m.spec with location := v } } : PGI) = m := by
  cases m with | mk mt sp st => cases sp; cases h; rfl

theorem update_maintenance_self {m : PGI} {v : Option SpecMaintenance} (h : m.spec.maintenance = v) :
    ({ m with spec := { m.spec with maintenance := v } } : PGI) = m := by
  cases m with | mk mt sp st => cases sp; cases h; rfl

theorem update_networking_self {m : PGI} {v : Option SpecNetworking} (h : m.spec.networking = v) :
    ({ m with spec := { m.spec with networking := v } } : PGI) = m := by
  cases m with | mk mt sp st => cases sp; cases h; rfl

theorem update_resources_self {m : PGI} {v : Option SpecResources} (h : m.spec.resources = v) :
    ({ m with spec := { m.spec with resources := v } } : PGI) = m := by
  cases m with | mk mt sp st => cases sp; cases h; rfl

theorem update_version_self {m : PGI} {v : Option String} (h : m.spec.version = v) :
    ({ m with spec := { m.spec with version := v } } : PGI) = m := by
  cases m with | mk mt sp st => cases sp; cases h; rfl

/-! ## Per-step characterization and stability lemmas -/

theorem annsAfterStep_lookup (a : KVList) :
    ∃ v, lookupKV (annsAfterStep a) allowDeletionAnnotationKey = some v ∧ v ≠ "" := by
  unfold annsAfterStep
  cases h : lookupKV a allowDeletionAnnotationKey with
  | none => exact ⟨v1alpha1False, lookupKV_insertKV a _ _, by decide⟩
  | some v =>
    show ∃ w, lookupKV
        (if v = "" then insertKV a allowDeletionAnnotationKey v1alpha1False else a)
        allowDeletionAnnotationKey = some w ∧ w ≠ ""
    by_cases hv : v = ""
    · rw [if_pos hv]
      exact ⟨v1alpha1False, lookupKV_insertKV a _ _, by decide⟩
    · rw [if_neg hv]
      exact ⟨v, h, hv⟩

theorem step1_char {m y : PGI} {prevOpt : Option PGI}
    (h : mutatePostgresqlInstanceMetadataAnnotations m prevOpt = .ok y) :
    y = { m with meta := { m.meta with annotations := some (annsAfterStep (m.meta.annotations.getD [])) } } :=
  (AdmResult.ok.inj h).symm

theorem step1_stable {m : PGI} {a : KVList} {v : String} (prevOpt : Option PGI)
    (ha : m.meta.annotations = some a)
    (hl : lookupKV a allowDeletionAnnotationKey = some v) (hv : v ≠ "") :
    mutatePostgresqlInstanceMetadataAnnotations m prevOpt = .ok m := by
  unfold mutatePostgresqlInstanceMetadataAnnotations
  have h2 : m.meta.annotations.getD [] = a := by rw [ha]; rfl
  have h3 : annsAfterStep a = a := by
    unfold annsAfterStep
    rw [hl]
    show (if v = "" then insertKV a allowDeletionAnnotationKey v1alpha1False else a) = a
    rw [if_neg hv]
  rw [h2, h3, update_annotations_self ha]

theorem step2_char {m y : PGI} {prevOpt : Option PGI}
    (h : validateAndMutatePostgresqlInstanceSpecAvailability m prevOpt = .ok y) :
    ∃ t, y = { m with spec := { m.spec with availability := some ⟨some t⟩ } } ∧
      (t = availabilityTypeRegional ∨ t = availabilityTypeZonal) := by
  simp only [validateAndMutatePostgresqlInstanceSpecAvailability] at h
  split at h
  · rename_i hcond
    exact ⟨_, (AdmResult.ok.inj h).symm, hcond⟩
  · exact absurd h (by simp)

theorem step2_stable {m : PGI} {t : String} (prevOpt : Option PGI)
    (h : m.spec.availability = some ⟨some t⟩)
    (hv : t = availabilityTypeRegional ∨ t = availabilityTypeZonal) :
    validateAndMutatePostgresqlInstanceSpecAvailability m prevOpt = .ok m := by
  unfold validateAndMutatePostgresqlInstanceSpecAvailability
  simp only [h, Option.getD_some]
  rw [if_pos hv, update_availability_self h]

theorem step3_char {m y : PGI} {prevOpt : Option PGI}
    (h : validateAndMutatePostgresqlInstanceSpecDailyBackups m prevOpt = .ok y) :
    ∃ en st, y = { m with spec := { m.spec with backups := some ⟨some ⟨some en, some st⟩⟩ } } ∧
      hourOfTheDayRegexMatch st = true := by
  simp only [validateAndMutatePostgresqlInstanceSpecDailyBackups] at h
  split at h
  · rename_i hcond
    exact ⟨_, _, (AdmResult.ok.inj h).symm, hcond⟩
  · exact absurd h (by simp)

theorem step3_stable {m : PGI} {en : Bool} {st : String} (prevOpt : Option PGI)
    (h : m.spec.backups = some ⟨some ⟨some en, some st⟩⟩)
    (hv : hourOfTheDayRegexMatch st = true) :
    validateAndMutatePostgresqlInstanceSpecDailyBackups m prevOpt = .ok m := by
  unfold validateAndMutatePostgresqlInstanceSpecDailyBackups
  simp only [h, Option.getD_some]
  rw [if_pos hv, update_backups_self h]

theorem step4_char {m y : PGI} {prevOpt : Option PGI}
    (h : validateAndMutatePostgresqlInstanceSpecFlags m prevOpt = .ok y) :
    y = { m with spec := { m.spec with flags := some (m.spec.flags.getD []) } } ∧
      checkFlagsFormat (m.spec.flags.getD []) = .ok () := by
  simp only [validateAndMutatePostgresqlInstanceSpecFlags] at h
  cases hc : checkFlagsFormat (m.spec.flags.getD []) with
  | ok u =>
    cases u
    rw [hc] at h
    simp only [AdmResult.bind] at h
    exact ⟨(AdmResult.ok.inj h).symm, rfl⟩
  | err e => rw [hc] at h; exact absurd h (by simp [AdmResult.bind])
  | panicked => rw [hc] at h; exact absurd h (by simp [AdmResult.bind])

theorem step4_stable {m : PGI} {fl : List String} (prevOpt : Option PGI)
    (h : m.spec.flags = some fl) (hv : checkFlagsFormat fl = .ok ()) :
    validateAndMutatePostgresqlInstanceSpecFlags m prevOpt = .ok m := by
  unfold validateAndMutatePostgresqlInstanceSpecFlags
  simp only [h, Option.getD_some, hv, AdmResult.bind]
  rw [update_flags_self h]

theorem step5_char {m y : PGI} {prevOpt : Option PGI}
    (h : validateAndMutatePostgresqlInstanceSpecLabels m prevOpt = .ok y) :
    y = { m with spec := { m.spec with labels := some (insertKV (m.spec.labels.getD []) specLabelsOwnerName applicationName) } } :=
  (AdmResult.ok.inj h).symm

theorem step5_stable {m : PGI} {ls : KVList} (prevOpt : Option PGI)
    (h : m.spec.labels = some ls)
    (hv : insertKV ls specLabelsOwnerName applicationName = ls) :
    validateAndMutatePostgresqlInstanceSpecLabels m prevOpt = .ok m := by
  unfold validateAndMutatePostgresqlInstanceSpecLabels
  simp only [h, Option.getD_some, hv]
  rw [update_labels_self h]

theorem step6_char {m y : PGI} {prevOpt : Option PGI}
    (h : validateAndMutatePostgresqlInstanceSpecLocation m prevOpt = .ok y) :
    y = { m with spec := { m.spec with location := some ⟨some ((m.spec.location.getD ⟨none, none⟩).region.getD locationRegionDefault), some ((m.spec.location.getD ⟨none, none⟩).zone.getD locationZoneDefault)⟩ } } ∧
      checkPrevLocation prevOpt ((m.spec.location.getD ⟨none, none⟩).region.getD locationRegionDefault) = .ok () := by
  simp only [validateAndMutatePostgresqlInstanceSpecLocation] at h
  cases hc : checkPrevLocation prevOpt ((m.spec.location.getD ⟨none, none⟩).region.getD locationRegionDefault) with
  | ok u =>
    cases u
    rw [hc] at h
    simp only [AdmResult.bind] at h
    exact ⟨(AdmResult.ok.inj h).symm, rfl⟩
  | err e => rw [hc] at h; exact absurd h (by simp [AdmResult.bind])
  | panicked => rw [hc] at h; exact absurd h (by simp [AdmResult.bind])

theorem step6_stable {m : PGI} {region zone : String} (prevOpt : Option PGI)
    (h : m.spec.location = some ⟨some region, some zone⟩)
    (hp : checkPrevLocation prevOpt region = .ok ()) :
    validateAndMutatePostgresqlInstanceSpecLocation m prevOpt = .ok m := by
  unfold validateAndMutatePostgresqlInstanceSpecLocation
  simp only [h, Option.getD_some, hp, AdmResult.bind]
  rw [update_location_self h]

theorem step7_char {m y : PGI} {prevOpt : Option PGI}
    (h : validateAndMutatePostgresqlInstanceSpecMaintenance m prevOpt = .ok y) :
    ∃ day hour, y = { m with spec := { m.spec with maintenance := some ⟨some day, some hour⟩ } } ∧
      validMaintenanceDay day = true ∧
      (hour = maintenanceHourAny ∨ hourOfTheDayRegexMatch hour = true) := by
  simp only [validateAndMutatePostgresqlInstanceSpecMaintenance] at h
  split at h
  · rename_i hday
    split at h
    · rename_i hhour
      exact ⟨_, _, (AdmResult.ok.inj h).symm, hday, hhour⟩
    · exact absurd h (by simp)
  · exact absurd h (by simp)

theorem step7_stable {m : PGI} {day hour : String} (prevOpt : Option PGI)
    (h : m.spec.maintenance = some ⟨some day, some hour⟩)
    (hd : validMaintenanceDay day = true)
    (hh : hour = maintenanceHourAny ∨ hourOfTheDayRegexMatch hour = true) :
    validateAndMutatePostgresqlInstanceSpecMaintenance m prevOpt = .ok m := by
  unfold validateAndMutatePostgresqlInstanceSpecMaintenance
  simp only [h, Option.getD_some]
  rw [if_pos hd, if_pos hh, update_maintenance_self h]

theorem step8_char {env : AdmissionEnv} {m y : PGI} {prevOpt : Option PGI}
    (h : validatePostgresqlInstanceSpecName env m prevOpt = .ok y) : y = m := by
  cases prevOpt with
  | some prev =>
    simp only [validatePostgresqlInstanceSpecName] at h
    split at h
    · exact absurd h (by simp)
    · split at h
      · exact absurd h (by simp)
      · split at h
        · exact absurd h (by simp)
        · split at h
          · exact absurd h (by simp)
          · exact (AdmResult.ok.inj h).symm
  | none =>
    simp only [validatePostgresqlInstanceSpecName] at h
    split at h
    · exact absurd h (by simp)
    · split at h
      · exact absurd h (by simp)
      · split at h
        · exact absurd h (by simp)
        · split at h
          · exact absurd h (by simp)
          · exact (AdmResult.ok.inj h).symm
          · exact absurd h (by simp)

theorem step8_prev_name {env : AdmissionEnv} {m y prev : PGI}
    (h : validatePostgresqlInstanceSpecName env m (some prev) = .ok y) :
    m.spec.name = prev.spec.name := by
  simp only [validatePostgresqlInstanceSpecName] at h
  split at h
  · exact absurd h (by simp)
  · rename_i hne
    exact not_ne_iff.mp hne

theorem step8_stable {env : AdmissionEnv} {m m' y : PGI} {prevOpt : Option PGI}
    (h : validatePostgresqlInstanceSpecName env m prevOpt = .ok y)
    (hn : m'.spec.name = m.spec.name) :
    validatePostgresqlInstanceSpecName env m' prevOpt = .ok m' := by
  cases prevOpt with
  | some prev =>
    simp only [validatePostgresqlInstanceSpecName] at h ⊢
    rw [hn]
    split at h
    · exact absurd h (by simp)
    · rename_i h1
      rw [if_neg h1]
      split at h
      · exact absurd h (by simp)
      · rename_i h2
        rw [if_neg h2]
        split at h
        · exact absurd h (by simp)
        · rename_i h3
          rw [if_neg h3]
          split at h
          · exact absurd h (by simp)
          · rename_i h4
            rw [if_neg h4]
  | none =>
    simp only [validatePostgresqlInstanceSpecName] at h ⊢
    rw [hn]
    split at h
    · exact absurd h (by simp)
    · rename_i h1
      rw [if_neg h1]
      split at h
      · exact absurd h (by simp)
      · rename_i h2
        rw [if_neg h2]
        split at h
        · exact absurd h (by simp)
        · rename_i h3
          rw [if_neg h3]
          split at h
          · exact absurd h (by simp)
          · rfl
          · exact absurd h (by simp)

theorem step9_char {m y : PGI} {prevOpt : Option PGI}
    (h : validateAndMutatePostgresqlInstanceSpecNetworking m prevOpt = .ok y) :
    y = { m with spec := { m.spec with networking := some ⟨some ⟨some (((m.spec.networking.getD ⟨none, none⟩).privateIP.getD ⟨none, none⟩).enabled.getD privateIPEnabledDefault), some (((m.spec.networking.getD ⟨none, none⟩).privateIP.getD ⟨none, none⟩).network.getD privateIPNetworkDefault)⟩, some ⟨some (((m.spec.networking.getD ⟨none, none⟩).publicIP.getD ⟨none, none⟩).authorizedNetworks.getD []), some (((m.spec.networking.getD ⟨none, none⟩).publicIP.getD ⟨none, none⟩).enabled.getD publicIPEnabledDefault)⟩⟩ } } ∧
      checkPrevNetworking prevOpt (((m.spec.networking.getD ⟨none, none⟩).privateIP.getD ⟨none, none⟩).enabled.getD privateIPEnabledDefault) (((m.spec.networking.getD ⟨none, none⟩).privateIP.getD ⟨none, none⟩).network.getD privateIPNetworkDefault) = .ok () ∧
      ¬((((m.spec.networking.getD ⟨none, none⟩).privateIP.getD ⟨none, none⟩).enabled.getD privateIPEnabledDefault) = false ∧ (((m.spec.networking.getD ⟨none, none⟩).publicIP.getD ⟨none, none⟩).enabled.getD publicIPEnabledDefault) = false) ∧
      ¬((((m.spec.networking.getD ⟨none, none⟩).privateIP.getD ⟨none, none⟩).enabled.getD privateIPEnabledDefault) = true ∧ (((m.spec.networking.getD ⟨none, none⟩).privateIP.getD ⟨none, none⟩).network.getD privateIPNetworkDefault) = "") := by
  simp only [validateAndMutatePostgresqlInstanceSpecNetworking] at h
  cases hc : checkPrevNetworking prevOpt (((m.spec.networking.getD ⟨none, none⟩).privateIP.getD ⟨none, none⟩).enabled.getD privateIPEnabledDefault) (((m.spec.networking.getD ⟨none, none⟩).privateIP.getD ⟨none, none⟩).network.getD privateIPNetworkDefault) with
  | ok u =>
    cases u
    rw [hc] at h
    simp only [AdmResult.bind] at h
    split at h
    · exact absurd h (by simp)
    · rename_i hc1
      split at h
      · exact absurd h (by simp)
      · rename_i hc2
        exact ⟨(AdmResult.ok.inj h).symm, rfl, hc1, hc2⟩
  | err e => rw [hc] at h; exact absurd h (by simp [AdmResult.bind])
  | panicked => rw [hc] at h; exact absurd h (by simp [AdmResult.bind])

theorem step9_stable {m : PGI} {pe : Bool} {pn : String}
    {ans : List SpecAuthorizedNetwork} {pube : Bool} (prevOpt : Option PGI)
    (h : m.spec.networking = some ⟨some ⟨some pe, some pn⟩, some ⟨some ans, some pube⟩⟩)
    (hp : checkPrevNetworking prevOpt pe pn = .ok ())
    (h1 : ¬(pe = false ∧ pube = false)) (h2 : ¬(pe = true ∧ pn = "")) :
    validateAndMutatePostgresqlInstanceSpecNetworking m prevOpt = .ok m := by
  unfold validateAndMutatePostgresqlInstanceSpecNetworking
  simp only [h, Option.getD_some, hp, AdmResult.bind]
  rw [if_neg h1, if_neg h2, update_networking_self h]

theorem step10_char {m y : PGI} {prevOpt : Option PGI}
    (h : validateAndMutatePostgresqlInstanceSpecResources m prevOpt = .ok y) :
    y = { m with spec := { m.spec with resources := some ⟨some ⟨some (((m.spec.resources.getD ⟨none, none⟩).disk.getD ⟨none, none, none⟩).sizeMaximumGb.getD diskSizeMaximumGbDefault), some (((m.spec.resources.getD ⟨none, none⟩).disk.getD ⟨none, none, none⟩).sizeMinimumGb.getD diskSizeMinimumGbDefault), some (((m.spec.resources.getD ⟨none, none⟩).disk.getD ⟨none, none, none⟩).type.getD diskTypeDefault)⟩, some ((m.spec.resources.getD ⟨none, none⟩).instanceType.getD instanceTypeDefault)⟩ } } ∧
      checkPrevResources prevOpt (((m.spec.resources.getD ⟨none, none⟩).disk.getD ⟨none, none, none⟩).sizeMinimumGb.getD diskSizeMinimumGbDefault) (((m.spec.resources.getD ⟨none, none⟩).disk.getD ⟨none, none, none⟩).type.getD diskTypeDefault) = .ok () ∧
      ¬((((m.spec.resources.getD ⟨none, none⟩).disk.getD ⟨none, none, none⟩).sizeMinimumGb.getD diskSizeMinimumGbDefault) < sizeMinimumGbLowerBound) ∧
      ¬((((m.spec.resources.getD ⟨none, none⟩).disk.getD ⟨none, none, none⟩).sizeMaximumGb.getD diskSizeMaximumGbDefault) ≠ 0 ∧ (((m.spec.resources.getD ⟨none, none⟩).disk.getD ⟨none, none, none⟩).sizeMaximumGb.getD diskSizeMaximumGbDefault) < (((m.spec.resources.getD ⟨none, none⟩).disk.getD ⟨none, none, none⟩).sizeMinimumGb.getD diskSizeMinimumGbDefault)) ∧
      ((((m.spec.resources.getD ⟨none, none⟩).disk.getD ⟨none, none, none⟩).type.getD diskTypeDefault) = diskTypeHDD ∨ (((m.spec.resources.getD ⟨none, none⟩).disk.getD ⟨none, none, none⟩).type.getD diskTypeDefault) = diskTypeSSD) := by
  simp only [validateAndMutatePostgresqlInstanceSpecResources] at h
  cases hc : checkPrevResources prevOpt (((m.spec.resources.getD ⟨none, none⟩).disk.getD ⟨none, none, none⟩).sizeMinimumGb.getD diskSizeMinimumGbDefault) (((m.spec.resources.getD ⟨none, none⟩).disk.getD ⟨none, none, none⟩).type.getD diskTypeDefault) with
  | ok u =>
    cases u
    rw [hc] at h
    simp only [AdmResult.bind] at h
    split at h
    · exact absurd h (by simp)
    · rename_i hb1
      split at h
      · exact absurd h (by simp)
      · rename_i hb2
        split at h
        · rename_i hb3
          exact ⟨(AdmResult.ok.inj h).symm, rfl, hb1, hb2, hb3⟩
        · exact absurd h (by simp)
  | err e => rw [hc] at h; exact absurd h (by simp [AdmResult.bind])
  | panicked => rw [hc] at h; exact absurd h (by simp [AdmResult.bind])

theorem step10_stable {m : PGI} {mx mn : Int} {ty it : String} (prevOpt : Option PGI)
    (h : m.spec.resources = some ⟨some ⟨some mx, some mn, some ty⟩, some it⟩)
    (hp : checkPrevResources prevOpt mn ty = .ok ())
    (hb1 : ¬(mn < sizeMinimumGbLowerBound)) (hb2 : ¬(mx ≠ 0 ∧ mx < mn))
    (hb3 : ty = diskTypeHDD ∨ ty = diskTypeSSD) :
    validateAndMutatePostgresqlInstanceSpecResources m prevOpt = .ok m := by
  unfold validateAndMutatePostgresqlInstanceSpecResources
  simp only [h, Option.getD_some, hp, AdmResult.bind]
  rw [if_neg hb1, if_neg hb2, if_pos hb3, update_resources_self h]

theorem step11_char {m y : PGI} {prevOpt : Option PGI}
    (h : validateAndMutatePostgresqlInstanceSpecVersion m prevOpt = .ok y) :
    checkPrevVersion prevOpt m = .ok () ∧ m.spec.version.getD versionDefault = version96 ∧
      y = { m with spec := { m.spec with version := some version96 } } := by
  simp only [validateAndMutatePostgresqlInstanceSpecVersion] at h
  cases hc : checkPrevVersion prevOpt m with
  | ok u =>
    cases u
    rw [hc] at h
    simp only [AdmResult.bind] at h
    split at h
    · rename_i hv
      refine ⟨rfl, hv, ?_⟩
      rw [← hv]
      exact (AdmResult.ok.inj h).symm
    · exact absurd h (by simp)
  | err e => rw [hc] at h; exact absurd h (by simp [AdmResult.bind])
  | panicked => rw [hc] at h; exact absurd h (by simp [AdmResult.bind])

theorem step11_stable {m : PGI} (prevOpt : Option PGI)
    (h : m.spec.version = some version96)
    (hp : checkPrevVersion prevOpt m = .ok ()) :
    validateAndMutatePostgresqlInstanceSpecVersion m prevOpt = .ok m := by
  unfold validateAndMutatePostgresqlInstanceSpecVersion
  simp only [hp, AdmResult.bind, h, Option.getD_some, if_true]
  rw [update_version_self h]

/-! ## Characterizations of the UPDATE-only immutability checks -/

theorem checkPrevLocation_ok_char {prev : PGI} {r : String}
    (h : checkPrevLocation (some prev) r = .ok ()) :
    ∀ ploc pr, prev.spec.location = some ploc → ploc.region = some pr → r = pr := by
  intro ploc pr hl hr
  simp only [checkPrevLocation, hl, hr, deref, AdmResult.bind] at h
  split at h
  · exact absurd h (by simp)
  · rename_i hne
    exact not_ne_iff.mp hne

theorem checkPrevResources_ok_char {prev : PGI} {mn : Int} {ty : String}
    (h : checkPrevResources (some prev) mn ty = .ok ()) :
    ∀ prs pdk, prev.spec.resources = some prs → prs.disk = some pdk →
      (∀ pmn, pdk.sizeMinimumGb = some pmn → pmn ≤ mn) ∧
      (∀ pty, pdk.type = some pty → pty = ty) := by
  intro prs pdk hrs hdk
  simp only [checkPrevResources, hrs, hdk, deref, AdmResult.bind] at h
  cases hmn : pdk.sizeMinimumGb with
  | none => rw [hmn] at h; exact absurd h (by simp [deref, AdmResult.bind])
  | some pmn0 =>
    rw [hmn] at h
    simp only [deref, AdmResult.bind] at h
    split at h
    · exact absurd h (by simp)
    · rename_i hlt
      constructor
      · intro pmn hpmn
        rw [← Option.some.inj hpmn]
        exact not_lt.mp hlt
      · intro pty hpty
        rw [hpty] at h
        simp only [deref, AdmResult.bind] at h
        split at h
        · exact absurd h (by simp)
        · rename_i hne
          exact not_ne_iff.mp hne

theorem checkPrevVersion_ok_char {prev m : PGI}
    (h : checkPrevVersion (some prev) m = .ok ()) :
    ∃ vc, m.spec.version = some vc ∧ prev.spec.version = some vc := by
  simp only [checkPrevVersion] at h
  cases hm : m.spec.version with
  | none => rw [hm] at h; exact absurd h (by simp [deref, AdmResult.bind])
  | some vc =>
    rw [hm] at h
    simp only [deref, AdmResult.bind] at h
    cases hp : prev.spec.version with
    | none => rw [hp] at h; exact absurd h (by simp [deref, AdmResult.bind])
    | some vp =>
      rw [hp] at h
      simp only [deref, AdmResult.bind] at h
      split at h
      · exact absurd h (by simp)
      · rename_i hne
        have hvv : vc = vp := not_ne_iff.mp hne
        exact ⟨vc, rfl, by rw [hvv]⟩

theorem checkPrevVersion_mk {prev m : PGI} {v : String}
    (hm : m.spec.version = some v) (hp : prev.spec.version = some v) :
    checkPrevVersion (some prev) m = .ok () := by
  simp only [checkPrevVersion, hm, hp, deref, AdmResult.bind]
  simp

/-! ## Result-shape helpers for the bind chain -/

theorem bind_ok {α β : Type} {x : AdmResult α} {f : α → AdmResult β} {b : β}
    (h : x.bind f = .ok b) : ∃ a, x = .ok a ∧ f a = .ok b := by
  cases x with
  | ok a =>
    simp only [AdmResult.bind] at h
    exact ⟨a, rfl, h⟩
  | err e => exact absurd h (by simp [AdmResult.bind])
  | panicked => exact absurd h (by simp [AdmResult.bind])

theorem bind_panicked {α β : Type} {x : AdmResult α} {f : α → AdmResult β}
    (h : x.bind f = .panicked) : x = .panicked ∨ ∃ a, x = .ok a ∧ f a = .panicked := by
  cases x with
  | ok a =>
    simp only [AdmResult.bind] at h
    exact Or.inr ⟨a, rfl, h⟩
  | err e => exact absurd h (by simp [AdmResult.bind])
  | panicked => exact Or.inl rfl

theorem bind_ne_panicked {α β : Type} {x : AdmResult α} {f : α → AdmResult β}
    (hx : x ≠ .panicked) (hf : ∀ a, f a ≠ .panicked) : x.bind f ≠ .panicked := by
  cases x with
  | ok a => simpa only [AdmResult.bind] using hf a
  | err e => simp [AdmResult.bind]
  | panicked => exact absurd rfl hx

/-! ## Per-step absence of nil dereference -/

theorem step1_np (m : PGI) (p : Option PGI) :
    mutatePostgresqlInstanceMetadataAnnotations m p ≠ .panicked := by
  simp [mutatePostgresqlInstanceMetadataAnnotations]

theorem step2_np (m : PGI) (p : Option PGI) :
    validateAndMutatePostgresqlInstanceSpecAvailability m p ≠ .panicked := by
  simp only [validateAndMutatePostgresqlInstanceSpecAvailability]
  split <;> simp

theorem step3_np (m : PGI) (p : Option PGI) :
    validateAndMutatePostgresqlInstanceSpecDailyBackups m p ≠ .panicked := by
  simp only [validateAndMutatePostgresqlInstanceSpecDailyBackups]
  split <;> simp

theorem checkFlagsFormat_np (l : List String) : checkFlagsFormat l ≠ .panicked := by
  induction l with
  | nil => simp [checkFlagsFormat]
  | cons a rest ih =>
    unfold checkFlagsFormat
    split
    · exact ih
    · simp

theorem step4_np (m : PGI) (p : Option PGI) :
    validateAndMutatePostgresqlInstanceSpecFlags m p ≠ .panicked := by
  simp only [validateAndMutatePostgresqlInstanceSpecFlags]
  exact bind_ne_panicked (checkFlagsFormat_np _) (fun a => by simp [AdmResult.bind])

theorem step5_np (m : PGI) (p : Option PGI) :
    validateAndMutatePostgresqlInstanceSpecLabels m p ≠ .panicked := by
  simp [validateAndMutatePostgresqlInstanceSpecLabels]

theorem checkPrevLocation_np {prev : PGI} {pr pz : String}
    (hl : prev.spec.location = some ⟨some pr, some pz⟩) :
    ∀ r, checkPrevLocation (some prev) r ≠ .panicked := by
  intro r
  simp only [checkPrevLocation, hl, deref, AdmResult.bind]
  split <;> simp

theorem step6_np {prevOpt : Option PGI}
    (hcl : ∀ r, checkPrevLocation prevOpt r ≠ .panicked) (m : PGI) :
    validateAndMutatePostgresqlInstanceSpecLocation m prevOpt ≠ .panicked := by
  simp only [validateAndMutatePostgresqlInstanceSpecLocation]
  exact bind_ne_panicked (hcl _) (fun a => by simp [AdmResult.bind])

theorem step7_np (m : PGI) (p : Option PGI) :
    validateAndMutatePostgresqlInstanceSpecMaintenance m p ≠ .panicked := by
  simp only [validateAndMutatePostgresqlInstanceSpecMaintenance]
  split
  · split <;> simp
  · simp

theorem step8_np (env : AdmissionEnv) (m : PGI) (prevOpt : Option PGI) :
    validatePostgresqlInstanceSpecName env m prevOpt ≠ .panicked := by
  cases prevOpt with
  | some prev =>
    simp only [validatePostgresqlInstanceSpecName]
    split
    · simp
    · split
      · simp
      · split
        · simp
        · split <;> simp
  | none =>
    simp only [validatePostgresqlInstanceSpecName]
    split
    · simp
    · split
      · simp
      · split
        · simp
        · split <;> simp

theorem checkPrevNetworking_np {prev : PGI} {ppe : Bool} {ppn : String}
    {pans : List SpecAuthorizedNetwork} {ppub : Bool}
    (hn : prev.spec.networking = some ⟨some ⟨some ppe, some ppn⟩, some ⟨some pans, some ppub⟩⟩) :
    ∀ pe pn, checkPrevNetworking (some prev) pe pn ≠ .panicked := by
  intro pe pn
  simp only [checkPrevNetworking, hn, deref, AdmResult.bind]
  split
  · simp
  · split <;> simp

theorem step9_np {prevOpt : Option PGI}
    (hcn : ∀ pe pn, checkPrevNetworking prevOpt pe pn ≠ .panicked) (m : PGI) :
    validateAndMutatePostgresqlInstanceSpecNetworking m prevOpt ≠ .panicked := by
  simp only [validateAndMutatePostgresqlInstanceSpecNetworking]
  refine bind_ne_panicked (hcn _ _) (fun a => ?_)
  split
  · simp
  · split <;> simp

theorem checkPrevResources_np {prev : PGI} {pmx pmn : Int} {pty pit : String}
    (hr : prev.spec.resources = some ⟨some ⟨some pmx, some pmn, some pty⟩, some pit⟩) :
    ∀ mn ty, checkPrevResources (some prev) mn ty ≠ .panicked := by
  intro mn ty
  simp only [checkPrevResources, hr, deref, AdmResult.bind]
  split
  · simp
  · split <;> simp

theorem step10_np {prevOpt : Option PGI}
    (hcr : ∀ mn ty, checkPrevResources prevOpt mn ty ≠ .panicked) (m : PGI) :
    validateAndMutatePostgresqlInstanceSpecResources m prevOpt ≠ .panicked := by
  simp only [validateAndMutatePostgresqlInstanceSpecResources]
  refine bind_ne_panicked (hcr _ _) (fun a => ?_)
  split
  · simp
  · split
    · simp
    · split <;> simp

theorem checkPrevVersion_np {prev m : PGI} {v pv : String}
    (hm : m.spec.version = some v) (hp : prev.spec.version = some pv) :
    checkPrevVersion (some prev) m ≠ .panicked := by
  simp only [checkPrevVersion, hm, hp, deref, AdmResult.bind]
  split <;> simp

theorem step11_np {prevOpt : Option PGI} {m : PGI}
    (hcv : checkPrevVersion prevOpt m ≠ .panicked) :
    validateAndMutatePostgresqlInstanceSpecVersion m prevOpt ≠ .panicked := by
  simp only [validateAndMutatePostgresqlInstanceSpecVersion]
  refine bind_ne_panicked hcv (fun a => ?_)
  split <;> simp

/-- Everything a successful pipeline run guarantees about its output and
its input: the shape of every defaulted field of the output, the
validation conditions that were checked, and the ties between the
output's immutable fields and the candidate's effective values. -/
theorem runWebhookOps_ok_inv {env : AdmissionEnv} {cur y : PGI} {prevOpt : Option PGI}
    (h : runWebhookOps env cur prevOpt = .ok y) :
    y.meta.annotations = some (annsAfterStep (cur.meta.annotations.getD [])) ∧
    (∃ t, y.spec.availability = some ⟨some t⟩ ∧
       (t = availabilityTypeRegional ∨ t = availabilityTypeZonal)) ∧
    (∃ en st, y.spec.backups = some ⟨some ⟨some en, some st⟩⟩ ∧
       hourOfTheDayRegexMatch st = true) ∧
    (y.spec.flags = some (cur.spec.flags.getD []) ∧
       checkFlagsFormat (cur.spec.flags.getD []) = .ok ()) ∧
    (∃ ls, y.spec.labels = some (insertKV ls specLabelsOwnerName applicationName)) ∧
    (∃ region zone, y.spec.location = some ⟨some region, some zone⟩ ∧
       region = (cur.spec.location.getD ⟨none, none⟩).region.getD locationRegionDefault ∧
       checkPrevLocation prevOpt region = .ok ()) ∧
    (∃ day hour, y.spec.maintenance = some ⟨some day, some hour⟩ ∧
       validMaintenanceDay day = true ∧
       (hour = maintenanceHourAny ∨ hourOfTheDayRegexMatch hour = true)) ∧
    validatePostgresqlInstanceSpecName env y prevOpt = .ok y ∧
    (∀ prev, prevOpt = some prev → cur.spec.name = prev.spec.name) ∧
    (∃ pe pn ans pube,
       y.spec.networking = some ⟨some ⟨some pe, some pn⟩, some ⟨some ans, some pube⟩⟩ ∧
       checkPrevNetworking prevOpt pe pn = .ok () ∧
       ¬(pe = false ∧ pube = false) ∧ ¬(pe = true ∧ pn = "")) ∧
    (∃ mx mn ty it,
       y.spec.resources = some ⟨some ⟨some mx, some mn, some ty⟩, some it⟩ ∧
       mn = ((cur.spec.resources.getD ⟨none, none⟩).disk.getD ⟨none, none, none⟩).sizeMinimumGb.getD diskSizeMinimumGbDefault ∧
       ty = ((cur.spec.resources.getD ⟨none, none⟩).disk.getD ⟨none, none, none⟩).type.getD diskTypeDefault ∧
       checkPrevResources prevOpt mn ty = .ok () ∧
       ¬(mn < sizeMinimumGbLowerBound) ∧ ¬(mx ≠ 0 ∧ mx < mn) ∧
       (ty = diskTypeHDD ∨ ty = diskTypeSSD)) ∧
    y.spec.version = some version96 ∧
    cur.spec.version.getD versionDefault = version96 ∧
    (∀ prev, prevOpt = some prev →
       ∃ vc, cur.spec.version = some vc ∧ prev.spec.version = some vc) := by
  unfold runWebhookOps at h
  obtain ⟨m1, h1, h⟩ := bind_ok h
  obtain ⟨m2, h2, h⟩ := bind_ok h
  obtain ⟨m3, h3, h⟩ := bind_ok h
  obtain ⟨m4, h4, h⟩ := bind_ok h
  obtain ⟨m5, h5, h⟩ := bind_ok h
  obtain ⟨m6, h6, h⟩ := bind_ok h
  obtain ⟨m7, h7, h⟩ := bind_ok h
  obtain ⟨m8, h8, h⟩ := bind_ok h
  obtain ⟨m9, h9, h⟩ := bind_ok h
  obtain ⟨m10, h10, h11⟩ := bind_ok h
  have e1 := step1_char h1; subst e1
  obtain ⟨t, e2, ht⟩ := step2_char h2; subst e2
  obtain ⟨en, st, e3, hst⟩ := step3_char h3; subst e3
  obtain ⟨e4, hc4⟩ := step4_char h4; subst e4
  have e5 := step5_char h5; subst e5
  obtain ⟨e6, hc6⟩ := step6_char h6; subst e6
  obtain ⟨day, hour, e7, hday, hhour⟩ := step7_char h7; subst e7
  have e8 := step8_char h8; subst e8
  obtain ⟨e9, hc9, h91, h92⟩ := step9_char h9; subst e9
  obtain ⟨e10, hc10, hb1, hb2, hb3⟩ := step10_char h10; subst e10
  obtain ⟨hcpv, hv96, e11⟩ := step11_char h11; subst e11
  refine ⟨rfl, ⟨t, rfl, ht⟩, ⟨en, st, rfl, hst⟩, ⟨rfl, hc4⟩, ⟨_, rfl⟩,
    ⟨_, _, rfl, rfl, hc6⟩, ⟨day, hour, rfl, hday, hhour⟩, ?_, ?_,
    ⟨_, _, _, _, rfl, hc9, h91, h92⟩,
    ⟨_, _, _, _, rfl, rfl, rfl, hc10, hb1, hb2, hb3⟩,
    rfl, hv96, ?_⟩
  · exact step8_stable h8 rfl
  · intro prev hpo
    subst hpo
    have hnm := step8_prev_name h8
    exact hnm
  · intro prev hpo
    subst hpo
    exact checkPrevVersion_ok_char hcpv

/-- A resource whose allow-deletion annotation is "true". -/
def pgiDeletable : PGI :=
  { pgiBare with meta := { pgiBare.meta with annotations := some [(allowDeletionAnnotationKey, v1alpha1True)] } }

/-! ## C2 -/

/-- Whether every optional field of the spec is populated (the shape an
object admitted by the webhook always has; on any other object the Go
controller would dereference nil). -/
def specComplete (p : PGI) : Bool :=
  match p.spec.availability, p.spec.backups, p.spec.flags, p.spec.labels, p.spec.location,
      p.spec.maintenance, p.spec.networking, p.spec.resources, p.spec.version with
  | some ⟨some _⟩, some ⟨some ⟨some _, some _⟩⟩, some _, some _, some ⟨some _, some _⟩,
    some ⟨some _, some _⟩, some ⟨some ⟨some _, some _⟩, some ⟨some _, some _⟩⟩,
    some ⟨some ⟨some _, some _, some _⟩, some _⟩, some _ => true
  | _, _, _, _, _, _, _, _, _ => false

attribute [ext] Settings DatabaseInstance BackupConfigurationData IpConfigurationData
  LocationPreferenceData MaintenanceWindowData

/-- Each drift-correction if-block leaves its target field at the
desired value whether or not it fired (it fires exactly when the values
differ), and ORs the fired flag into `mustUpdate`.  One `_fst`/`_snd`
pair per block. -/
theorem updAvailabilityType_fst (ds : Settings) (su : Settings × Bool) :
    (updAvailabilityType ds su).1 = { su.1 with availabilityType := ds.availabilityType } := by
  unfold updAvailabilityType
  split
  · rfl
  · rename_i h
    rw [← not_ne_iff.mp h]

theorem updAvailabilityType_snd (ds : Settings) (su : Settings × Bool) :
    (updAvailabilityType ds su).2 =
      (decide (su.1.availabilityType ≠ ds.availabilityType) || su.2) := by
  unfold updAvailabilityType
  split <;> rename_i h <;> simp [h]

theorem updBackupEnabled_fst (ds : Settings) (su : Settings × Bool) :
    (updBackupEnabled ds su).1 =
      { su.1 with backupConfiguration := { su.1.backupConfiguration with enabled := ds.backupConfiguration.enabled } } := by
  unfold updBackupEnabled
  split
  · rfl
  · rename_i h
    rw [← not_ne_iff.mp h]

theorem updBackupEnabled_snd (ds : Settings) (su : Settings × Bool) :
    (updBackupEnabled ds su).2 =
      (decide (su.1.backupConfiguration.enabled ≠ ds.backupConfiguration.enabled) || su.2) := by
  unfold updBackupEnabled
  split <;> rename_i h <;> simp [h]

theorem updBackupStartTime_fst (ds : Settings) (su : Settings × Bool) :
    (updBackupStartTime ds su).1 =
      { su.1 with backupConfiguration := { su.1.backupConfiguration with startTime := ds.backupConfiguration.startTime } } := by
  unfold updBackupStartTime
  split
  · rfl
  · rename_i h
    rw [← not_ne_iff.mp h]

theorem updBackupStartTime_snd (ds : Settings) (su : Settings × Bool) :
    (updBackupStartTime ds su).2 =
      (decide (su.1.backupConfiguration.startTime ≠ ds.backupConfiguration.startTime) || su.2) := by
  unfold updBackupStartTime
  split <;> rename_i h <;> simp [h]

theorem updDatabaseFlags_fst (ds : Settings) (su : Settings × Bool) :
    (updDatabaseFlags ds su).1 = { su.1 with databaseFlags := ds.databaseFlags } := by
  unfold updDatabaseFlags
  split
  · rfl
  · rename_i h
    rw [← not_ne_iff.mp h]

theorem updDatabaseFlags_snd (ds : Settings) (su : Settings × Bool) :
    (updDatabaseFlags ds su).2 =
      (decide (su.1.databaseFlags ≠ ds.databaseFlags) || su.2) := by
  unfold updDatabaseFlags
  split <;> rename_i h <;> simp [h]

theorem updDataDiskSizeGb_fst (ds : Settings) (su : Settings × Bool) :
    (updDataDiskSizeGb ds su).1 = { su.1 with dataDiskSizeGb := ds.dataDiskSizeGb } := by
  unfold updDataDiskSizeGb
  split
  · rfl
  · rename_i h
    rw [← not_ne_iff.mp h]

theorem updDataDiskSizeGb_snd (ds : Settings) (su : Settings × Bool) :
    (updDataDiskSizeGb ds su).2 =
      (decide (su.1.dataDiskSizeGb ≠ ds.dataDiskSizeGb) || su.2) := by
  unfold updDataDiskSizeGb
  split <;> rename_i h <;> simp [h]

theorem updAuthorizedNetworks_fst (ds : Settings) (su : Settings × Bool) :
    (updAuthorizedNetworks ds su).1 =
      { su.1 with ipConfiguration := { su.1.ipConfiguration with authorizedNetworks := ds.ipConfiguration.authorizedNetworks } } := by
  unfold updAuthorizedNetworks
  split
  · rfl
  · rename_i h
    rw [← not_ne_iff.mp h]

theorem updAuthorizedNetworks_snd (ds : Settings) (su : Settings × Bool) :
    (updAuthorizedNetworks ds su).2 =
      (decide (su.1.ipConfiguration.authorizedNetworks ≠ ds.ipConfiguration.authorizedNetworks) || su.2) := by
  unfold updAuthorizedNetworks
  split <;> rename_i h <;> simp [h]

theorem updIpv4Enabled_fst (ds : Settings) (su : Settings × Bool) :
    (updIpv4Enabled ds su).1 =
      { su.1 with ipConfiguration := { su.1.ipConfiguration with ipv4Enabled := ds.ipConfiguration.ipv4Enabled } } := by
  unfold updIpv4Enabled
  split
  · rfl
  · rename_i h
    rw [← not_ne_iff.mp h]

theorem updIpv4Enabled_snd (ds : Settings) (su : Settings × Bool) :
    (updIpv4Enabled ds su).2 =
      (decide (su.1.ipConfiguration.ipv4Enabled ≠ ds.ipConfiguration.ipv4Enabled) || su.2) := by
  unfold updIpv4Enabled
  split <;> rename_i h <;> simp [h]

theorem updPrivateNetwork_fst (ds : Settings) (su : Settings × Bool) :
    (updPrivateNetwork ds su).1 =
      { su.1 with ipConfiguration := { su.1.ipConfiguration with privateNetwork := ds.ipConfiguration.privateNetwork } } := by
  unfold updPrivateNetwork
  split
  · rfl
  · rename_i h
    rw [← not_ne_iff.mp h]

theorem updPrivateNetwork_snd (ds : Settings) (su : Settings × Bool) :
    (updPrivateNetwork ds su).2 =
      (decide (su.1.ipConfiguration.privateNetwork ≠ ds.ipConfiguration.privateNetwork) || su.2) := by
  unfold updPrivateNetwork
  split <;> rename_i h <;> simp [h]

theorem updZone_fst (p : PGI) (ds : Settings) (su : Settings × Bool) :
    (updZone p ds su).1 =
      (if specZoneValue p = locationZoneAny then su.1
       else { su.1 with locationPreference := { su.1.locationPreference with zone := ds.locationPreference.zone } }) := by
  unfold updZone
  by_cases hz : specZoneValue p = locationZoneAny
  · rw [if_neg (fun hc => hc.1 hz), if_pos hz]
  · by_cases hzz : su.1.locationPreference.zone = ds.locationPreference.zone
    · rw [if_neg (fun hc => hc.2 hzz), if_neg hz, ← hzz]
    · rw [if_pos ⟨hz, hzz⟩, if_neg hz]

theorem updZone_snd (p : PGI) (ds : Settings) (su : Settings × Bool) :
    (updZone p ds su).2 =
      (decide (specZoneValue p ≠ locationZoneAny ∧
        su.1.locationPreference.zone ≠ ds.locationPreference.zone) || su.2) := by
  unfold updZone
  split <;> rename_i h <;> simp [h]

theorem updMaintenanceDay_fst (ds : Settings) (su : Settings × Bool) :
    (updMaintenanceDay ds su).1 =
      { su.1 with maintenanceWindow := { su.1.maintenanceWindow with day := ds.maintenanceWindow.day } } := by
  unfold updMaintenanceDay
  split
  · rfl
  · rename_i h
    rw [← not_ne_iff.mp h]

theorem updMaintenanceDay_snd (ds : Settings) (su : Settings × Bool) :
    (updMaintenanceDay ds su).2 =
      (decide (su.1.maintenanceWindow.day ≠ ds.maintenanceWindow.day) || su.2) := by
  unfold updMaintenanceDay
  split <;> rename_i h <;> simp [h]

theorem updMaintenanceHour_fst (ds : Settings) (su : Settings × Bool) :
    (updMaintenanceHour ds su).1 =
      { su.1 with maintenanceWindow := { su.1.maintenanceWindow with hour := ds.maintenanceWindow.hour } } := by
  unfold updMaintenanceHour
  split
  · rfl
  · rename_i h
    rw [← not_ne_iff.mp h]

theorem updMaintenanceHour_snd (ds : Settings) (su : Settings × Bool) :
    (updMaintenanceHour ds su).2 =
      (decide (su.1.maintenanceWindow.hour ≠ ds.maintenanceWindow.hour) || su.2) := by
  unfold updMaintenanceHour
  split <;> rename_i h <;> simp [h]

theorem updStorageAutoResize_fst (ds : Settings) (su : Settings × Bool) :
    (updStorageAutoResize ds su).1 = { su.1 with storageAutoResize := ds.storageAutoResize } := by
  unfold updStorageAutoResize
  split
  · rfl
  · rename_i h
    rw [← not_ne_iff.mp h]

theorem updStorageAutoResize_snd (ds : Settings) (su : Settings × Bool) :
    (updStorageAutoResize ds su).2 =
      (decide (su.1.storageAutoResize ≠ ds.storageAutoResize) || su.2) := by
  unfold updStorageAutoResize
  split <;> rename_i h <;> simp [h]

theorem updStorageAutoResizeLimit_fst (ds : Settings) (su : Settings × Bool) :
    (updStorageAutoResizeLimit ds su).1 =
      { su.1 with storageAutoResizeLimit := ds.storageAutoResizeLimit } := by
  unfold updStorageAutoResizeLimit
  split
  · rfl
  · rename_i h
    rw [← not_ne_iff.mp h]

theorem updStorageAutoResizeLimit_snd (ds : Settings) (su : Settings × Bool) :
    (updStorageAutoResizeLimit ds su).2 =
      (decide (su.1.storageAutoResizeLimit ≠ ds.storageAutoResizeLimit) || su.2) := by
  unfold updStorageAutoResizeLimit
  split <;> rename_i h <;> simp [h]

theorem updTier_fst (ds : Settings) (su : Settings × Bool) :
    (updTier ds su).1 = { su.1 with tier := ds.tier } := by
  unfold updTier
  split
  · rfl
  · rename_i h
    rw [← not_ne_iff.mp h]

theorem updTier_snd (ds : Settings) (su : Settings × Bool) :
    (updTier ds su).2 = (decide (su.1.tier ≠ ds.tier) || su.2) := by
  unfold updTier
  split <;> rename_i h <;> simp [h]

theorem updUserLabels_fst (ds : Settings) (su : Settings × Bool) :
    (updUserLabels ds su).1 = { su.1 with userLabels := ds.userLabels } := by
  unfold updUserLabels
  split
  · rfl
  · rename_i h
    rw [← not_ne_iff.mp h]

theorem updUserLabels_snd (ds : Settings) (su : Settings × Bool) :
    (updUserLabels ds su).2 = (decide (su.1.userLabels ≠ ds.userLabels) || su.2) := by
  unfold updUserLabels
  split <;> rename_i h <;> simp [h]

theorem ite_availabilityType (c : Prop) [Decidable c] (a b : Settings) :
    (if c then a else b).availabilityType = if c then a.availabilityType else b.availabilityType :=
  apply_ite _ _ _ _
theorem ite_backupConfiguration (c : Prop) [Decidable c] (a b : Settings) :
    (if c then a else b).backupConfiguration = if c then a.backupConfiguration else b.backupConfiguration :=
  apply_ite _ _ _ _
theorem ite_databaseFlags (c : Prop) [Decidable c] (a b : Settings) :
    (if c then a else b).databaseFlags = if c then a.databaseFlags else b.databaseFlags :=
  apply_ite _ _ _ _
theorem ite_dataDiskSizeGb (c : Prop) [Decidable c] (a b : Settings) :
    (if c then a else b).dataDiskSizeGb = if c then a.dataDiskSizeGb else b.dataDiskSizeGb :=
  apply_ite _ _ _ _
theorem ite_dataDiskType (c : Prop) [Decidable c] (a b : Settings) :
    (if c then a else b).dataDiskType = if c then a.dataDiskType else b.dataDiskType :=
  apply_ite _ _ _ _
theorem ite_ipConfiguration (c : Prop) [Decidable c] (a b : Settings) :
    (if c then a else b).ipConfiguration = if c then a.ipConfiguration else b.ipConfiguration :=
  apply_ite _ _ _ _
theorem ite_locationPreference (c : Prop) [Decidable c] (a b : Settings) :
    (if c then a else b).locationPreference = if c then a.locationPreference else b.locationPreference :=
  apply_ite _ _ _ _
theorem ite_maintenanceWindow (c : Prop) [Decidable c] (a b : Settings) :
    (if c then a else b).maintenanceWindow = if c then a.maintenanceWindow else b.maintenanceWindow :=
  apply_ite _ _ _ _
theorem ite_settingsVersion (c : Prop) [Decidable c] (a b : Settings) :
    (if c then a else b).settingsVersion = if c then a.settingsVersion else b.settingsVersion :=
  apply_ite _ _ _ _
theorem ite_activationPolicy (c : Prop) [Decidable c] (a b : Settings) :
    (if c then a else b).activationPolicy = if c then a.activationPolicy else b.activationPolicy :=
  apply_ite _ _ _ _
theorem ite_storageAutoResize (c : Prop) [Decidable c] (a b : Settings) :
    (if c then a else b).storageAutoResize = if c then a.storageAutoResize else b.storageAutoResize :=
  apply_ite _ _ _ _
theorem ite_storageAutoResizeLimit (c : Prop) [Decidable c] (a b : Settings) :
    (if c then a else b).storageAutoResizeLimit = if c then a.storageAutoResizeLimit else b.storageAutoResizeLimit :=
  apply_ite _ _ _ _
theorem ite_tier (c : Prop) [Decidable c] (a b : Settings) :
    (if c then a else b).tier = if c then a.tier else b.tier :=
  apply_ite _ _ _ _
theorem ite_userLabels (c : Prop) [Decidable c] (a b : Settings) :
    (if c then a else b).userLabels = if c then a.userLabels else b.userLabels :=
  apply_ite _ _ _ _
theorem ite_bc_enabled (c : Prop) [Decidable c] (a b : BackupConfigurationData) :
    (if c then a else b).enabled = if c then a.enabled else b.enabled :=
  apply_ite _ _ _ _
theorem ite_bc_startTime (c : Prop) [Decidable c] (a b : BackupConfigurationData) :
    (if c then a else b).startTime = if c then a.startTime else b.startTime :=
  apply_ite _ _ _ _
theorem ite_ip_authorizedNetworks (c : Prop) [Decidable c] (a b : IpConfigurationData) :
    (if c then a else b).authorizedNetworks = if c then a.authorizedNetworks else b.authorizedNetworks :=
  apply_ite _ _ _ _
theorem ite_ip_ipv4Enabled (c : Prop) [Decidable c] (a b : IpConfigurationData) :
    (if c then a else b).ipv4Enabled = if c then a.ipv4Enabled else b.ipv4Enabled :=
  apply_ite _ _ _ _
theorem ite_ip_privateNetwork (c : Prop) [Decidable c] (a b : IpConfigurationData) :
    (if c then a else b).privateNetwork = if c then a.privateNetwork else b.privateNetwork :=
  apply_ite _ _ _ _
theorem ite_lp_zone (c : Prop) [Decidable c] (a b : LocationPreferenceData) :
    (if c then a else b).zone = if c then a.zone else b.zone :=
  apply_ite _ _ _ _
theorem ite_mw_day (c : Prop) [Decidable c] (a b : MaintenanceWindowData) :
    (if c then a else b).day = if c then a.day else b.day :=
  apply_ite _ _ _ _
theorem ite_mw_hour (c : Prop) [Decidable c] (a b : MaintenanceWindowData) :
    (if c then a else b).hour = if c then a.hour else b.hour :=
  apply_ite _ _ _ _

/-- C2: drift detection reports nothing to update exactly when every
compared field of the observed settings agrees with the desired value
(the zone being compared only when the spec's zone is not "Any"); and
the settings object handed to the update call is the observed object
with exactly the compared fields overwritten by their desired values —
uncompared fields (activation policy, settings version, disk type)
keep their observed values, so when a single compared field differs the
result is the observed settings with only that field replaced. -/
theorem claim_C2 (p : PGI) (di : DatabaseInstance) (_hadm : specComplete p = true) :
    ((updateDatabaseInstanceSettings p di).2 = false ↔
      (di.settings.availabilityType = (buildDatabaseInstanceSettings p).availabilityType ∧
       di.settings.backupConfiguration.enabled = (buildDatabaseInstanceSettings p).backupConfiguration.enabled ∧
       di.settings.backupConfiguration.startTime = (buildDatabaseInstanceSettings p).backupConfiguration.startTime ∧
       di.settings.databaseFlags = (buildDatabaseInstanceSettings p).databaseFlags ∧
       di.settings.dataDiskSizeGb = (buildDatabaseInstanceSettings p).dataDiskSizeGb ∧
       di.settings.ipConfiguration.authorizedNetworks = (buildDatabaseInstanceSettings p).ipConfiguration.authorizedNetworks ∧
       di.settings.ipConfiguration.ipv4Enabled = (buildDatabaseInstanceSettings p).ipConfiguration.ipv4Enabled ∧
       di.settings.ipConfiguration.privateNetwork = (buildDatabaseInstanceSettings p).ipConfiguration.privateNetwork ∧
       (specZoneValue p = locationZoneAny ∨
         di.settings.locationPreference.zone = (buildDatabaseInstanceSettings p).locationPreference.zone) ∧
       di.settings.maintenanceWindow.day = (buildDatabaseInstanceSettings p).maintenanceWindow.day ∧
       di.settings.maintenanceWindow.hour = (buildDatabaseInstanceSettings p).maintenanceWindow.hour ∧
       di.settings.storageAutoResize = (buildDatabaseInstanceSettings p).storageAutoResize ∧
       di.settings.storageAutoResizeLimit = (buildDatabaseInstanceSettings p).storageAutoResizeLimit ∧
       di.settings.tier = (buildDatabaseInstanceSettings p).tier ∧
       di.settings.userLabels = (buildDatabaseInstanceSettings p).userLabels)) ∧
    (updateDatabaseInstanceSettings p di).1 =
      { di with settings :=
        { di.settings with
          availabilityType := (buildDatabaseInstanceSettings p).availabilityType
          backupConfiguration := (buildDatabaseInstanceSettings p).backupConfiguration
          databaseFlags := (buildDatabaseInstanceSettings p).databaseFlags
          dataDiskSizeGb := (buildDatabaseInstanceSettings p).dataDiskSizeGb
          ipConfiguration := (buildDatabaseInstanceSettings p).ipConfiguration
          locationPreference :=
            if specZoneValue p = locationZoneAny then di.settings.locationPreference
            else (buildDatabaseInstanceSettings p).locationPreference
          maintenanceWindow := (buildDatabaseInstanceSettings p).maintenanceWindow
          storageAutoResize := (buildDatabaseInstanceSettings p).storageAutoResize
          storageAutoResizeLimit := (buildDatabaseInstanceSettings p).storageAutoResizeLimit
          tier := (buildDatabaseInstanceSettings p).tier
          userLabels := (buildDatabaseInstanceSettings p).userLabels } } := by
  constructor
  · show (updUserLabels (buildDatabaseInstanceSettings p) (updTier _ (updStorageAutoResizeLimit _
        (updStorageAutoResize _ (updMaintenanceHour _ (updMaintenanceDay _ (updZone p _
          (updPrivateNetwork _ (updIpv4Enabled _ (updAuthorizedNetworks _ (updDataDiskSizeGb _
            (updDatabaseFlags _ (updBackupStartTime _ (updBackupEnabled _
              (updAvailabilityType _ (di.settings, false)))))))))))))))).2 = false ↔ _
    simp only [updUserLabels_snd, updTier_snd, updStorageAutoResizeLimit_snd,
      updStorageAutoResize_snd, updMaintenanceHour_snd, updMaintenanceDay_snd, updZone_snd,
      updPrivateNetwork_snd, updIpv4Enabled_snd, updAuthorizedNetworks_snd,
      updDataDiskSizeGb_snd, updDatabaseFlags_snd, updBackupStartTime_snd,
      updBackupEnabled_snd, updAvailabilityType_snd,
      updUserLabels_fst, updTier_fst, updStorageAutoResizeLimit_fst, updStorageAutoResize_fst,
      updMaintenanceHour_fst, updMaintenanceDay_fst, updZone_fst, updPrivateNetwork_fst,
      updIpv4Enabled_fst, updAuthorizedNetworks_fst, updDataDiskSizeGb_fst,
      updDatabaseFlags_fst, updBackupStartTime_fst, updBackupEnabled_fst,
      updAvailabilityType_fst,
      ite_availabilityType, ite_backupConfiguration, ite_databaseFlags, ite_dataDiskSizeGb,
      ite_dataDiskType, ite_ipConfiguration, ite_locationPreference, ite_maintenanceWindow,
      ite_settingsVersion, ite_activationPolicy, ite_storageAutoResize,
      ite_storageAutoResizeLimit, ite_tier, ite_userLabels, ite_bc_enabled, ite_bc_startTime,
      ite_ip_authorizedNetworks, ite_ip_ipv4Enabled, ite_ip_privateNetwork, ite_lp_zone,
      ite_mw_day, ite_mw_hour, ite_self,
      Bool.or_eq_false_iff, decide_eq_false_iff_not, ne_eq, not_not, not_and]
    tauto
  · show ({ di with settings := (updUserLabels (buildDatabaseInstanceSettings p) (updTier _
        (updStorageAutoResizeLimit _ (updStorageAutoResize _ (updMaintenanceHour _
          (updMaintenanceDay _ (updZone p _ (updPrivateNetwork _ (updIpv4Enabled _
            (updAuthorizedNetworks _ (updDataDiskSizeGb _ (updDatabaseFlags _
              (updBackupStartTime _ (updBackupEnabled _ (updAvailabilityType _
                (di.settings, false)))))))))))))))).1 } : DatabaseInstance) = _
    refine DatabaseInstance.ext rfl rfl rfl ?_ rfl
    show _ = ({ di.settings with
        availabilityType := (buildDatabaseInstanceSettings p).availabilityType
        backupConfiguration := (buildDatabaseInstanceSettings p).backupConfiguration
        databaseFlags := (buildDatabaseInstanceSettings p).databaseFlags
        dataDiskSizeGb := (buildDatabaseInstanceSettings p).dataDiskSizeGb
        ipConfiguration := (buildDatabaseInstanceSettings p).ipConfiguration
        locationPreference :=
          if specZoneValue p = locationZoneAny then di.settings.locationPreference
          else (buildDatabaseInstanceSettings p).locationPreference
        maintenanceWindow := (buildDatabaseInstanceSettings p).maintenanceWindow
        storageAutoResize := (buildDatabaseInstanceSettings p).storageAutoResize
        storageAutoResizeLimit := (buildDatabaseInstanceSettings p).storageAutoResizeLimit
        tier := (buildDatabaseInstanceSettings p).tier
        userLabels := (buildDatabaseInstanceSettings p).userLabels } : Settings)
    refine Settings.ext ?_ ?_ ?_ ?_ ?_ ?_ ?_ ?_ ?_ ?_ ?_ ?_ ?_ ?_ <;>
      simp only [updUserLabels_fst, updTier_fst, updStorageAutoResizeLimit_fst,
        updStorageAutoResize_fst, updMaintenanceHour_fst, updMaintenanceDay_fst, updZone_fst,
        updPrivateNetwork_fst, updIpv4Enabled_fst, updAuthorizedNetworks_fst,
        updDataDiskSizeGb_fst, updDatabaseFlags_fst, updBackupStartTime_fst,
        updBackupEnabled_fst, updAvailabilityType_fst,
        ite_availabilityType, ite_backupConfiguration, ite_databaseFlags, ite_dataDiskSizeGb,
        ite_dataDiskType, ite_ipConfiguration, ite_locationPreference, ite_maintenanceWindow,
        ite_settingsVersion, ite_activationPolicy, ite_storageAutoResize,
        ite_storageAutoResizeLimit, ite_tier, ite_userLabels, ite_bc_enabled, ite_bc_startTime,
        ite_ip_authorizedNetworks, ite_ip_ipv4Enabled, ite_ip_privateNetwork, ite_lp_zone,
        ite_mw_day, ite_mw_hour, ite_self]

/-- An observed instance whose settings equal the desired settings for
`pgiFull`. -/
def diC2 : DatabaseInstance :=
  ⟨"POSTGRES_9_6", "inst", locationRegionDefault, buildDatabaseInstanceSettings pgiFull, "RUNNABLE"⟩

theorem claim_C2_witness : (updateDatabaseInstanceSettings pgiFull diC2).2 = false :=
  (claim_C2 pgiFull diC2 rfl).1.mpr
    ⟨rfl, rfl, rfl, rfl, rfl, rfl, rfl, rfl, Or.inl rfl, rfl, rfl, rfl, rfl, rfl, rfl⟩

/-! ## C9 -/

/-- C9: in a reconciliation pass, (1) on a live object lacking the
cleanup finalizer the very first external call of the pass is the patch
persisting the finalizer — so no remote database call can precede it —
and if that patch fails the pass stops with its error; (2) on an object
being deleted that carries the finalizer, every call of the pass belongs
to the deletion phase (remote lookup/delete and the finalizer-removal
patch; in particular no create/update/secret/status step runs), a
"not found" lookup is treated as success (the finalizer is removed and
persisted with no error and no delete call), and on a successful lookup
the remote instance is deleted before the finalizer is removed and
persisted. -/
theorem claim_C9 (env : SyncEnv) (i : PGI) :
    (i.meta.deletionTimestamp = 0 → cleanupFinalizer ∉ i.meta.finalizers →
       ∃ rest res, processQueueItem env i =
           (Ev.patchInstance (i.meta.finalizers ++ [cleanupFinalizer]) :: rest, res) ∧
         (∀ e, env.patchAddFinalizerResult = some e → rest = [] ∧ res = some e)) ∧
    (i.meta.deletionTimestamp ≠ 0 → cleanupFinalizer ∈ i.meta.finalizers →
       (∀ ev ∈ (processQueueItem env i).1, ev.isDeletionPhase = true) ∧
       (∀ e, env.getForDelete = RemoteGetResult.errG e → IsNotFound e = true →
          env.patchRemoveFinalizerResult = none →
          processQueueItem env i =
            ([Ev.remoteGet i.spec.name,
              Ev.patchInstance (i.meta.finalizers.filter (fun f => f ≠ cleanupFinalizer))], none)) ∧
       (∀ di, env.getForDelete = RemoteGetResult.okInst di → env.deleteResult = none →
          env.patchRemoveFinalizerResult = none →
          processQueueItem env i =
            ([Ev.remoteGet i.spec.name, Ev.remoteDelete i.spec.name,
              Ev.patchInstance (i.meta.finalizers.filter (fun f => f ≠ cleanupFinalizer))], none))) := by
  constructor
  · intro h0 hfin
    unfold processQueueItem
    rw [if_pos h0, if_neg hfin]
    cases henv : env.patchAddFinalizerResult with
    | some e =>
      refine ⟨[], some e, rfl, fun e' he' => ?_⟩
      cases he'
      exact ⟨rfl, rfl⟩
    | none =>
      exact ⟨(processQueueItem.processMainBody env i
          { i with meta := { i.meta with finalizers := i.meta.finalizers ++ [cleanupFinalizer] } }).1,
        (processQueueItem.processMainBody env i
          { i with meta := { i.meta with finalizers := i.meta.finalizers ++ [cleanupFinalizer] } }).2,
        rfl, fun e' he' => nomatch he'⟩
  · intro hdt hfin
    unfold processQueueItem
    rw [if_neg hdt, if_pos hfin]
    refine ⟨?_, ?_, ?_⟩
    · intro ev
      unfold deleteInstance
      cases env.getForDelete with
      | okInst di =>
        cases env.deleteResult with
        | some e =>
          intro hev
          simp only [List.mem_cons, List.not_mem_nil, or_false, List.mem_singleton] at hev
          rcases hev with rfl | rfl <;> rfl
        | none =>
          cases env.patchRemoveFinalizerResult with
          | some e2 =>
            intro hev
            simp only [List.mem_cons, List.not_mem_nil, or_false, List.mem_singleton,
              List.cons_append, List.nil_append] at hev
            rcases hev with rfl | rfl | rfl <;> rfl
          | none =>
            intro hev
            simp only [List.mem_cons, List.not_mem_nil, or_false, List.mem_singleton,
              List.cons_append, List.nil_append] at hev
            rcases hev with rfl | rfl | rfl <;> rfl
      | errG e =>
        by_cases hnf : IsNotFound e = true
        · cases env.patchRemoveFinalizerResult with
          | some e2 =>
            intro hev
            simp [hnf] at hev
            rcases hev with rfl | rfl <;> rfl
          | none =>
            intro hev
            simp [hnf] at hev
            rcases hev with rfl | rfl <;> rfl
        · intro hev
          simp only [Bool.not_eq_true] at hnf
          simp [hnf] at hev
          subst hev
          rfl
    · intro e hget hnf hrm
      unfold deleteInstance
      rw [hget]
      simp [hnf, hrm]
    · intro di hget hdel hrm
      unfold deleteInstance
      rw [hget]
      simp [hdel, hrm]

/-- An object being deleted that carries the cleanup finalizer, and an
environment whose remote lookup reports 404. -/
def pgiDel : PGI :=
  { pgiBare with meta := { pgiBare.meta with deletionTimestamp := 12, finalizers := [cleanupFinalizer] } }

def envC9 : SyncEnv :=
  ⟨0, none, .errG (GErr.googleapi 404 "nf"), none, none, .errG (GErr.other "x"), none,
   .errG (GErr.other "x"), .okOps [], .notFound, none, none, none, none,
   .errG (GErr.other "x"), none⟩

theorem claim_C9_witness :
    processQueueItem envC9 pgiDel = ([Ev.remoteGet "inst", Ev.patchInstance []], none) := by
  have h := ((claim_C9 envC9 pgiDel).2 (by decide) (by simp [pgiDel, pgiBare]))
  simpa using h.2.1 (GErr.googleapi 404 "nf") rfl rfl rfl

theorem claim_C3_witness :
    reviewDeleteRequest env0 pgiDeletable = .allowedNoPatch ∧
    deleteDeniedMsg = "the resource cannot be deleted unless the \"" ++
      allowDeletionAnnotationKey ++ "\" annotation is set to \"" ++ v1alpha1True ++ "\"" :=
  ⟨(claim_C3 env0 pgiDeletable).1.mpr rfl, (claim_C3 env0 pgiBare).2 deleteDeniedMsg rfl⟩

/-! ## C4 -/

/-- `pgiFull` with the instance name changed. -/
def pgiC4Name : PGI := { pgiFull with spec := { pgiFull.spec with name := "other" } }

/-- `pgiFull` with the location region changed. -/
def pgiC4Region : PGI :=
  { pgiFull with spec := { pgiFull.spec with location := some ⟨some "europe-west4", some locationZoneAny⟩ } }

/-- `pgiFull` with the version changed. -/
def pgiC4Version : PGI := { pgiFull with spec := { pgiFull.spec with version := some "9.5" } }

/-- `pgiFull` with the disk type changed. -/
def pgiC4DiskType : PGI :=
  { pgiFull with spec := { pgiFull.spec with resources := some ⟨some ⟨some 0, some 10, some diskTypeHDD⟩, some instanceTypeDefault⟩ } }

/-- `pgiFull` with the minimum disk size decreased. -/
def pgiC4MinSize : PGI :=
  { pgiFull with spec := { pgiFull.spec with resources := some ⟨some ⟨some 0, some 9, some diskTypeSSD⟩, some instanceTypeDefault⟩ } }

/-- C4: on an update request the pipeline only succeeds when the
candidate keeps `spec.name`, the effective region, `spec.version` and
the effective disk type equal to the previous object's, and does not
decrease the effective minimum disk size (first conjunct, stated
contrapositively: success implies each immutable is preserved); and
changing each of the five fields against a fully defaulted previous
object is rejected with the five distinct per-field messages (remaining
conjuncts). -/
theorem claim_C4 (env : AdmissionEnv) (cur prev y : PGI)
    (h : runWebhookOps env cur (some prev) = .ok y) :
    (cur.spec.name = prev.spec.name ∧
     (∀ ploc pr, prev.spec.location = some ploc → ploc.region = some pr →
        (cur.spec.location.getD ⟨none, none⟩).region.getD locationRegionDefault = pr) ∧
     (∀ pv, prev.spec.version = some pv → cur.spec.version = some pv) ∧
     (∀ prs pdk pty, prev.spec.resources = some prs → prs.disk = some pdk →
        pdk.type = some pty →
        ((cur.spec.resources.getD ⟨none, none⟩).disk.getD ⟨none, none, none⟩).type.getD diskTypeDefault = pty) ∧
     (∀ prs pdk pmn, prev.spec.resources = some prs → prs.disk = some pdk →
        pdk.sizeMinimumGb = some pmn →
        pmn ≤ ((cur.spec.resources.getD ⟨none, none⟩).disk.getD ⟨none, none, none⟩).sizeMinimumGb.getD diskSizeMinimumGbDefault)) ∧
    (runWebhookOps env0 pgiC4Name (some pgiFull) = .err (nameChangedMsg "inst" "other") ∧
     runWebhookOps env0 pgiC4Region (some pgiFull) = .err (regionChangedMsg locationRegionDefault "europe-west4") ∧
     runWebhookOps env0 pgiC4Version (some pgiFull) = .err versionChangedMsg ∧
     runWebhookOps env0 pgiC4DiskType (some pgiFull) = .err (diskTypeChangedMsg diskTypeSSD diskTypeHDD) ∧
     runWebhookOps env0 pgiC4MinSize (some pgiFull) = .err (minSizeDecreasedMsg 10 9) ∧
     [nameChangedMsg "inst" "other", regionChangedMsg locationRegionDefault "europe-west4",
      versionChangedMsg, diskTypeChangedMsg diskTypeSSD diskTypeHDD,
      minSizeDecreasedMsg 10 9].Pairwise (fun a b => a ≠ b)) := by
  obtain ⟨-, -, -, -, -, ⟨region, zone, -, hreg, hc6⟩, -, -, hname, -,
      ⟨mx, mn, ty, it, -, hmn, hty, hc10, -, -, -⟩, -, -, h11p⟩ := runWebhookOps_ok_inv h
  refine ⟨⟨hname prev rfl, ?_, ?_, ?_, ?_⟩, rfl, rfl, rfl, rfl, rfl, by decide⟩
  · intro ploc pr hl hr
    rw [hreg] at hc6
    exact checkPrevLocation_ok_char hc6 ploc pr hl hr
  · intro pv hpv
    obtain ⟨vc, hmv, hpv'⟩ := h11p prev rfl
    rw [hpv] at hpv'
    rw [hmv, ← Option.some.inj hpv']
  · intro prs pdk pty hrs hdk hty'
    have hx := (checkPrevResources_ok_char hc10 prs pdk hrs hdk).2 pty hty'
    rw [← hty]
    exact hx.symm
  · intro prs pdk pmn hrs hdk hmn'
    have hx := (checkPrevResources_ok_char hc10 prs pdk hrs hdk).1 pmn hmn'
    rw [← hmn]
    exact hx

theorem claim_C4_witness :
    runWebhookOps env0 pgiFull (some pgiFull) = .ok pgiFull ∧
    pgiFull.spec.name = pgiFull.spec.name :=
  ⟨rfl, (claim_C4 env0 pgiFull pgiFull pgiFull rfl).1.1⟩

/-! ## C7 -/

/-- A bare PostgresqlInstance with public IP access enabled (the
minimal admissible create candidate). -/
def pgiC7 : PGI :=
  { pgiBare with spec := { pgiBare.spec with networking := some ⟨none, some ⟨none, some true⟩⟩ } }

/-- C7: the pipeline is idempotent: when a run succeeds, running the
pipeline again on its output (same environment, same previous object)
succeeds and returns its input unchanged, and the RFC 6902 patch between
the second run's input and output is empty. -/
theorem claim_C7 (env : AdmissionEnv) (cur : PGI) (prevOpt : Option PGI) (y : PGI)
    (h : runWebhookOps env cur prevOpt = .ok y) :
    runWebhookOps env y prevOpt = .ok y ∧ createRFC6902PatchOps y y = [] := by
  obtain ⟨h1, ⟨t, h2, ht⟩, ⟨en, st, h3, hst⟩, ⟨h4, hc4⟩, ⟨ls, h5⟩,
      ⟨region, zone, h6, hreg, hc6⟩, ⟨day, hour, h7, hday, hhour⟩, h8, -,
      ⟨pe, pn, ans, pube, h9, hc9, h91, h92⟩,
      ⟨mx, mn, ty, it, h10, hmn, hty, hc10, hb1, hb2, hb3⟩,
      h11v, h11d, h11p⟩ := runWebhookOps_ok_inv h
  constructor
  · obtain ⟨v, hl, hv⟩ := annsAfterStep_lookup (cur.meta.annotations.getD [])
    have s1 := step1_stable prevOpt h1 hl hv
    have s2 := step2_stable prevOpt h2 ht
    have s3 := step3_stable prevOpt h3 hst
    have s4 := step4_stable prevOpt h4 hc4
    have s5 := step5_stable prevOpt h5 (insertKV_lookup_self (lookupKV_insertKV ls _ _))
    have s6 := step6_stable prevOpt h6 hc6
    have s7 := step7_stable prevOpt h7 hday hhour
    have s9 := step9_stable prevOpt h9 hc9 h91 h92
    have s10 := step10_stable prevOpt h10 hc10 hb1 hb2 hb3
    have s11 : validateAndMutatePostgresqlInstanceSpecVersion y prevOpt = .ok y := by
      cases prevOpt with
      | none => exact step11_stable none h11v rfl
      | some prev =>
        obtain ⟨vc, hmv, hpv⟩ := h11p prev rfl
        have hvc : vc = version96 := by rw [hmv] at h11d; simpa using h11d
        exact step11_stable (some prev) h11v (checkPrevVersion_mk h11v (by rw [hpv, hvc]))
    unfold runWebhookOps
    simp only [s1, s2, s3, s4, s5, s6, s7, h8, s9, s10, s11, AdmResult.bind]
  · simp [createRFC6902PatchOps, diffField]

theorem claim_C7_witness :
    runWebhookOps env0 pgiC7 none = .ok pgiFull ∧
    runWebhookOps env0 pgiFull none = .ok pgiFull ∧
    createRFC6902PatchOps pgiFull pgiFull = [] :=
  ⟨rfl, (claim_C7 env0 pgiC7 none pgiFull rfl).1, (claim_C7 env0 pgiC7 none pgiFull rfl).2⟩

/-! ## C10 -/

/-- `pgiFull` with `spec.version` unset: a well-formed update candidate
whose version pointer is nil. -/
def pgiNoVersion : PGI := { pgiFull with spec := { pgiFull.spec with version := none } }

/-- C10 (as amended): the pipeline never dereferences nil on a CREATE
request, whatever the candidate — in particular with `spec.version`
unset; and on an UPDATE request against a previous object whose
admitted fields are populated it never dereferences nil PROVIDED the
candidate's `spec.version` is set — the version step dereferences the
candidate's version pointer before the defaulting that would initialise
it, so that proviso is necessary (see the counterexample). -/
theorem claim_C10 (env : AdmissionEnv) (cur : PGI) :
    validateAndMutatePostgresqlInstance env (some cur) none ≠ .panicked ∧
    (∀ (prev : PGI) (pr pz : String) (ppe : Bool) (ppn : String)
       (pans : List SpecAuthorizedNetwork) (ppub : Bool) (pmx pmn : Int)
       (pty pit pv v : String),
       prev.spec.location = some ⟨some pr, some pz⟩ →
       prev.spec.networking = some ⟨some ⟨some ppe, some ppn⟩, some ⟨some pans, some ppub⟩⟩ →
       prev.spec.resources = some ⟨some ⟨some pmx, some pmn, some pty⟩, some pit⟩ →
       prev.spec.version = some pv →
       cur.spec.version = some v →
       validateAndMutatePostgresqlInstance env (some cur) (some prev) ≠ .panicked) := by
  constructor
  · show (runWebhookOps env cur none).bind (fun m => .ok (some m)) ≠ .panicked
    refine bind_ne_panicked ?_ (fun a => by simp [AdmResult.bind])
    unfold runWebhookOps
    refine bind_ne_panicked (step1_np _ _) (fun m1 => ?_)
    refine bind_ne_panicked (step2_np _ _) (fun m2 => ?_)
    refine bind_ne_panicked (step3_np _ _) (fun m3 => ?_)
    refine bind_ne_panicked (step4_np _ _) (fun m4 => ?_)
    refine bind_ne_panicked (step5_np _ _) (fun m5 => ?_)
    refine bind_ne_panicked (step6_np (fun r => by simp [checkPrevLocation]) _) (fun m6 => ?_)
    refine bind_ne_panicked (step7_np _ _) (fun m7 => ?_)
    refine bind_ne_panicked (step8_np _ _ _) (fun m8 => ?_)
    refine bind_ne_panicked (step9_np (fun pe pn => by simp [checkPrevNetworking]) _) (fun m9 => ?_)
    refine bind_ne_panicked (step10_np (fun mn ty => by simp [checkPrevResources]) _) (fun m10 => ?_)
    exact step11_np (by simp [checkPrevVersion])
  · intro prev pr pz ppe ppn pans ppub pmx pmn pty pit pv v hl hn hr hpv hv
    show (runWebhookOps env cur (some prev)).bind (fun m => .ok (some m)) ≠ .panicked
    refine bind_ne_panicked ?_ (fun a => by simp [AdmResult.bind])
    intro hcon
    unfold runWebhookOps at hcon
    rcases bind_panicked hcon with hx | ⟨m1, h1, hcon⟩
    · exact step1_np _ _ hx
    have e1 := step1_char h1; subst e1
    rcases bind_panicked hcon with hx | ⟨m2, h2, hcon⟩
    · exact step2_np _ _ hx
    obtain ⟨t, e2, -⟩ := step2_char h2; subst e2
    rcases bind_panicked hcon with hx | ⟨m3, h3, hcon⟩
    · exact step3_np _ _ hx
    obtain ⟨en, st, e3, -⟩ := step3_char h3; subst e3
    rcases bind_panicked hcon with hx | ⟨m4, h4, hcon⟩
    · exact step4_np _ _ hx
    obtain ⟨e4, -⟩ := step4_char h4; subst e4
    rcases bind_panicked hcon with hx | ⟨m5, h5, hcon⟩
    · exact step5_np _ _ hx
    have e5 := step5_char h5; subst e5
    rcases bind_panicked hcon with hx | ⟨m6, h6, hcon⟩
    · exact step6_np (checkPrevLocation_np hl) _ hx
    obtain ⟨e6, -⟩ := step6_char h6; subst e6
    rcases bind_panicked hcon with hx | ⟨m7, h7, hcon⟩
    · exact step7_np _ _ hx
    obtain ⟨day, hour, e7, -, -⟩ := step7_char h7; subst e7
    rcases bind_panicked hcon with hx | ⟨m8, h8, hcon⟩
    · exact step8_np _ _ _ hx
    have e8 := step8_char h8; subst e8
    rcases bind_panicked hcon with hx | ⟨m9, h9, hcon⟩
    · exact step9_np (checkPrevNetworking_np hn) _ hx
    obtain ⟨e9, -, -, -⟩ := step9_char h9; subst e9
    rcases bind_panicked hcon with hx | ⟨m10, h10, hcon⟩
    · exact step10_np (checkPrevResources_np hr) _ hx
    obtain ⟨e10, -, -, -, -⟩ := step10_char h10; subst e10
    refine step11_np ?_ hcon
    exact checkPrevVersion_np hv hpv

theorem claim_C10_witness :
    validateAndMutatePostgresqlInstance env0 (some pgiBare) none ≠ .panicked ∧
    validateAndMutatePostgresqlInstance env0 (some pgiFull) (some pgiFull) ≠ .panicked :=
  ⟨(claim_C10 env0 pgiBare).1,
   (claim_C10 env0 pgiFull).2 pgiFull locationRegionDefault locationZoneAny false "" []
     true 0 10 diskTypeSSD instanceTypeDefault version96 version96
     rfl rfl rfl rfl rfl⟩

/-- C10 counterexample: a well-formed UPDATE candidate whose
`spec.version` is unset makes the pipeline dereference nil (the Go
webhook would crash), contradicting the claim that no step dereferences
an unset field. -/
theorem claim_C10_counterexample :
    pgiNoVersion.spec.version = none ∧
    validateAndMutatePostgresqlInstance env0 (some pgiNoVersion) (some pgiFull) = .panicked :=
  ⟨rfl, rfl⟩

end CloudsqlOperator
